import Mathlib

/-!
Shallow embedding of the agentic-sre-responder incident core: the data model
(app/models.py), the dual-tier store (app/store.py, durable tier), the
recommendation provider chain (app/providers/openai_provider.py,
app/providers/bedrock_provider.py, app/agents/remediation_advisor.py) and the
orchestration pipeline (app/orchestrator.py).

Modelling conventions:
- Python floats are modelled as exact fractions (the type Q below); the
  decimal literals appearing in the code (0.3, 0.4, 0.5, 0.6) are exact in
  both representations.
- Python datetimes are modelled as natural-number clock ticks; every call to
  now_utc advances the orchestrator clock by one.
- External HTTP calls (the LLM backends, the Kubernetes collectors, Slack) are
  modelled as explicit inputs: an attempt schedule for provider HTTP calls,
  InvestigationResult values for the collectors. Notifier calls have no effect
  on any claim and are omitted.
-/

namespace SreResponder

/-! ### Exact numbers

Python floats are modelled by exact fractions. All decimal literals in the
code (0.3, 0.4, 0.5, 0.6) and all JSON decimal literals are exact in this
representation. The type and its operations are built from structural
recursion only, so concrete runs reduce inside the kernel. -/

/-- Bounded-fuel Euclidean algorithm; the first argument strictly decreases,
so fuel a + 1 always suffices. -/
def natGcdAux : Nat → Nat → Nat → Nat
  | 0, _, b => b
  | Nat.succ fuel, a, b => if a = 0 then b else natGcdAux fuel (b % a) a

/-- Greatest common divisor. -/
def natGcd (a b : Nat) : Nat :=
  natGcdAux (a + 1) a b

/-- An exact fraction; every value built by the constructors below is in
lowest terms with a positive denominator, so structural equality is value
equality. -/
structure Q where
  num : Int
  den : Nat
deriving DecidableEq, Repr

/-- Builds the fraction n / d in lowest terms (d positive). -/
def Q.norm (n : Int) (d : Nat) : Q :=
  if d = 0 then ⟨0, 1⟩
  else
    let g := natGcd n.natAbs d
    ⟨n / (g : Int), d / g⟩

/-- The value m * 10 ^ e, the form in which every decimal literal arrives. -/
def Q.ofScaled (m : Int) (e : Int) : Q :=
  match e with
  | Int.ofNat k => ⟨m * ((10 ^ k : Nat) : Int), 1⟩
  | Int.negSucc k => Q.norm m (10 ^ (k + 1))

/-- Comparison a ≤ b by cross multiplication. -/
def Q.ble (a b : Q) : Bool :=
  decide (a.num * (b.den : Int) ≤ b.num * (a.den : Int))

/-- Comparison a < b by cross multiplication. -/
def Q.blt (a b : Q) : Bool :=
  decide (a.num * (b.den : Int) < b.num * (a.den : Int))

/-- Python min of two floats: the second operand replaces the first only when
strictly smaller. -/
def pymin (a b : Q) : Q :=
  if Q.blt b a then b else a

/-- Python max of two floats: the second operand replaces the first only when
strictly larger. -/
def pymax (a b : Q) : Q :=
  if Q.blt a b then b else a

/-- Lifecycle status of an incident report. Mirrors the pydantic
Literal["new", "investigating", "recommended", "validated"] in app/models.py. -/
inductive Status where
  | new
  | investigating
  | recommended
  | validated
deriving DecidableEq, Repr

/-- TimelineEvent from app/models.py: stage name, "started" or "completed",
timestamp (modelled as a clock tick). -/
structure TimelineEvent where
  stage : String
  status : String
  timestamp : Nat
deriving DecidableEq, Repr

/-- Evidence from app/models.py: source, detail text, severity string
(the code restricts severity to info, warning, error). -/
structure Evidence where
  source : String
  detail : String
  severity : String
deriving DecidableEq, Repr

/-- RootCauseHypothesis from app/models.py; confidence is a float constrained
by pydantic to [0, 1]. -/
structure RootCauseHypothesis where
  hypothesis : String
  confidence : Q
deriving DecidableEq, Repr

/-- RecommendedAction from app/models.py; risk is pydantic
Literal["low", "medium", "high"], confidence is a float in [0, 1]. -/
structure RecommendedAction where
  action : String
  risk : String
  confidence : Q
deriving DecidableEq, Repr

/-- StageTiming from app/models.py: start tick and optional completion tick. -/
structure StageTiming where
  stage : String
  started_at : Nat
  completed_at : Option Nat
deriving DecidableEq, Repr

/-- The raw alert payload, restricted to the two string maps the core reads
(labels and annotations); app/orchestrator.py and app/store.py only ever access
payload["labels"] and payload["annotations"] as string-to-string dicts. -/
structure AlertPayload where
  labels : List (String × String)
  annotations : List (String × String)
deriving DecidableEq, Repr

/-- IncidentReport from app/models.py, the central record. -/
structure IncidentReport where
  incident_id : String
  correlation_id : String
  status : Status
  incident_type : String
  severity : String
  summary : String
  created_at : Nat
  updated_at : Nat
  timeline : List TimelineEvent
  evidence : List Evidence
  root_cause_hypotheses : List RootCauseHypothesis
  recommended_actions : List RecommendedAction
  stage_timings : List StageTiming
  links : List String
  raw_alert : AlertPayload
deriving DecidableEq, Repr

/-- RecommendationResult from app/results.py: a non-optional action list plus
an optional hypothesis list. -/
structure RecommendationResult where
  recommended_actions : List RecommendedAction
  root_cause_hypotheses : Option (List RootCauseHypothesis)
deriving DecidableEq, Repr

/-- TriageResult from app/results.py. -/
structure TriageResult where
  evidence : List Evidence
deriving DecidableEq, Repr

/-- InvestigationResult from app/results.py: evidence items plus links. -/
structure InvestigationResult where
  evidence : List Evidence
  links : List String
deriving DecidableEq, Repr

/-- Python dict.get on a string-to-string map: the first binding wins, as the
maps modelled here come from parsed JSON objects whose keys are unique. -/
def dictGet (m : List (String × String)) (k : String) : Option String :=
  (m.find? (fun kv => kv.1 == k)).map (fun kv => kv.2)

/-- Python truthiness of an optional string under the `or` operator: a missing
value and the empty string are both falsy. -/
def pyTruthy : Option String → Option String
  | some "" => none
  | o => o

/-- Evaluates a Python `a or b or ... or default` chain over optional strings. -/
def firstTruthy : List (Option String) → String → String
  | [], dflt => dflt
  | x :: rest, dflt =>
    match pyTruthy x with
    | some v => v
    | none => firstTruthy rest dflt

/-- summarize_alert from app/store.py: derives (incident_type, summary) from
the alert payload via Python `or` chains with "unknown" and an f-string
default. -/
def summarize_alert (payload : AlertPayload) : String × String :=
  let incident_type := firstTruthy
    [dictGet payload.labels "alertname",
     dictGet payload.labels "incident_type",
     dictGet payload.annotations "incident_type"] "unknown"
  let summary := firstTruthy
    [dictGet payload.annotations "summary",
     dictGet payload.annotations "description",
     dictGet payload.annotations "message"]
    ("Incident triggered: " ++ incident_type)
  (incident_type, summary)

/-! ### Durable store (app/store.py)

The durable tier is the SQLite table `incidents`, keyed by incident_id, with
denormalized columns plus the full report serialized by json.dumps into the
report_json text column. The Redis tier is never read or written by
save_incident_report or get_incident_report, so it is not modelled.

The report_json column is modelled by the value-level outcome of json.loads on
its text: json.dumps of a report dict always produces text that json.loads maps
back to an equal dict (a stdlib guarantee), so a blob written by
save_incident_report is `jsonOf report`; a row whose text is empty or fails
json.loads (external corruption) is `emptyText` or `invalidJson`. -/

/-- The report_json text column, by its json.loads outcome. -/
inductive ReportBlob where
  | emptyText
  | invalidJson
  | jsonOf (report : IncidentReport)
deriving DecidableEq, Repr

/-- One row of the incidents table. -/
structure IncidentRow where
  incident_id : String
  correlation_id : String
  status : Status
  incident_type : String
  severity : String
  summary : String
  created_at : Nat
  updated_at : Nat
  report_json : ReportBlob
deriving DecidableEq, Repr

/-- The durable store state: the rows of the incidents table, in insertion
order. incident_id is the primary key, so real states never hold two rows with
the same id. -/
structure StoreState where
  incidents : List IncidentRow
deriving DecidableEq, Repr

/-- SQLite INSERT ... ON CONFLICT(incident_id) DO UPDATE from
save_incident_report: on conflict only status, severity, summary, updated_at
and report_json are overwritten; correlation_id, incident_type and created_at
keep their existing values. -/
def upsertRow (rows : List IncidentRow) (row : IncidentRow) : List IncidentRow :=
  match rows with
  | [] => [row]
  | r :: rs =>
    if r.incident_id = row.incident_id then
      { r with
        status := row.status
        severity := row.severity
        summary := row.summary
        updated_at := row.updated_at
        report_json := row.report_json } :: rs
    else
      r :: upsertRow rs row

/-- Store.save_incident_report: the report dict is the model_dump of the
report; the row key is `report.get("incident_id") or str(uuid.uuid4())`, so an
empty (falsy) incident_id is replaced by the fresh uuid given here as freshId.
Both created_at and updated_at columns receive now_utc(), given here as the
tick now. Returns the incident_id used, as the source does. -/
def Store.save_incident_report (st : StoreState) (report : IncidentReport)
    (freshId : String) (now : Nat) : String × StoreState :=
  let incident_id := if report.incident_id = "" then freshId else report.incident_id
  let row : IncidentRow :=
    { incident_id := incident_id
      correlation_id := report.correlation_id
      status := report.status
      incident_type := report.incident_type
      severity := report.severity
      summary := report.summary
      created_at := now
      updated_at := now
      report_json := ReportBlob.jsonOf report }
  (incident_id, ⟨upsertRow st.incidents row⟩)

/-- Store.get_incident_report: SELECT report_json WHERE incident_id = ?; no
row gives None; an empty blob gives None (`if row[0] else None`); a blob on
which json.loads raises JSONDecodeError gives None (the except clause);
otherwise the decoded report dict. -/
def Store.get_incident_report (st : StoreState) (incident_id : String) :
    Option IncidentReport :=
  match st.incidents.find? (fun r => r.incident_id == incident_id) with
  | none => none
  | some row =>
    match row.report_json with
    | ReportBlob.emptyText => none
    | ReportBlob.invalidJson => none
    | ReportBlob.jsonOf report => some report

/-! ### Hypothesis derivation (app/orchestrator.py, _derive_hypotheses) -/

/-- Decides whether needle is a prefix of hay, character by character. -/
def charsHavePrefix : List Char → List Char → Bool
  | [], _ => true
  | _ :: _, [] => false
  | a :: as, b :: bs => a == b && charsHavePrefix as bs

/-- Decides whether needle occurs contiguously inside hay (Python
`needle in hay` on strings). -/
def charsContain (hay needle : List Char) : Bool :=
  match hay with
  | [] => needle.isEmpty
  | _ :: t => charsHavePrefix needle hay || charsContain t needle

/-- Python substring membership `needle in hay`. -/
def strContains (hay needle : String) : Bool :=
  charsContain hay.data needle.data

/-- Python str.lower, character by character (the risk values compared here
are plain ASCII). -/
def strLower (s : String) : String :=
  ⟨s.data.map Char.toLower⟩

/-- The crash-loop hypothesis _derive_hypotheses appends at fixed confidence
0.6. -/
def crashLoopHyp : RootCauseHypothesis :=
  { hypothesis := "Pod crash loops detected", confidence := Q.ofScaled 6 (-1) }

/-- The image-pull hypothesis _derive_hypotheses appends at fixed confidence
0.5. -/
def imagePullHyp : RootCauseHypothesis :=
  { hypothesis := "Image pull failures", confidence := Q.ofScaled 5 (-1) }

/-- The generic hypothesis _derive_hypotheses emits at fixed confidence 0.3
when no signature matched. -/
def genericHyp : RootCauseHypothesis :=
  { hypothesis := "Investigate recent changes in workload", confidence := Q.ofScaled 3 (-1) }

/-- One iteration of the _derive_hypotheses loop body from
app/orchestrator.py: the crash-loop hypothesis when the item detail contains
"CrashLoopBackOff", then the image-pull hypothesis when it contains
"ImagePullBackOff". -/
def signatureHypotheses (item : Evidence) : List RootCauseHypothesis :=
  (if strContains item.detail "CrashLoopBackOff" then [crashLoopHyp] else []) ++
  (if strContains item.detail "ImagePullBackOff" then [imagePullHyp] else [])

/-- _derive_hypotheses from app/orchestrator.py: one pass over the evidence
appending the signature hypotheses of every item; if nothing matched, the one
generic hypothesis. -/
def derive_hypotheses (evidence : List Evidence) : List RootCauseHypothesis :=
  let hypotheses := evidence.flatMap signatureHypotheses
  if hypotheses = [] then [genericHyp] else hypotheses

/-! ### JSON values and json.loads (the stdlib json module, as the providers
use it)

Provider responses arrive as text; both providers slice out the brace-to-brace
substring and hand it to json.loads. The parser below implements the JSON
grammar accepted by json.loads (numbers are modelled as rationals; the NaN and
Infinity extensions of the stdlib parser are outside the model). -/

/-- A JSON value as returned by json.loads. -/
inductive Json where
  | null
  | bool (b : Bool)
  | num (q : Q)
  | str (s : String)
  | arr (elems : List Json)
  | obj (fields : List (String × Json))
deriving Repr, Inhabited

/-- Skips the JSON whitespace characters. -/
def skipWs : List Char → List Char
  | [] => []
  | c :: rest =>
    if c = ' ' ∨ c = '\n' ∨ c = '\t' ∨ c = '\r' then skipWs rest else c :: rest

/-- Value of one hexadecimal digit. -/
def hexVal (c : Char) : Option Nat :=
  if '0' ≤ c ∧ c ≤ '9' then some (c.toNat - 48)
  else if 'a' ≤ c ∧ c ≤ 'f' then some (c.toNat - 87)
  else if 'A' ≤ c ∧ c ≤ 'F' then some (c.toNat - 55)
  else none

/-- Resolves a single-character JSON string escape. -/
def escChar : Char → Option Char
  | '\x22' => some '\x22'
  | '\\' => some '\\'
  | '/' => some '/'
  | 'b' => some (Char.ofNat 8)
  | 'f' => some (Char.ofNat 12)
  | 'n' => some '\n'
  | 'r' => some '\r'
  | 't' => some '\t'
  | _ => none

/-- Parses the body of a JSON string after the opening quote, returning the
string and the text after the closing quote. -/
def parseStringBody : Nat → List Char → Option (String × List Char)
  | 0, _ => none
  | Nat.succ fuel, cs =>
    match cs with
    | [] => none
    | '\x22' :: rest => some ("", rest)
    | '\\' :: rest =>
      match rest with
      | [] => none
      | e :: rest2 =>
        if e = 'u' then
          match rest2 with
          | h1 :: h2 :: h3 :: h4 :: rest3 =>
            match hexVal h1, hexVal h2, hexVal h3, hexVal h4 with
            | some a, some b, some c, some d =>
              let code := ((a * 16 + b) * 16 + c) * 16 + d
              (parseStringBody fuel rest3).map
                (fun sr => (⟨Char.ofNat code :: sr.1.data⟩, sr.2))
            | _, _, _, _ => none
          | _ => none
        else
          match escChar e with
          | some c => (parseStringBody fuel rest2).map
              (fun sr => (⟨c :: sr.1.data⟩, sr.2))
          | none => none
    | c :: rest => (parseStringBody fuel rest).map
        (fun sr => (⟨c :: sr.1.data⟩, sr.2))

/-- Numeric value of a digit sequence. -/
def digitsToNat (ds : List Char) : Nat :=
  ds.foldl (fun n c => n * 10 + (c.toNat - 48)) 0

/-- Parses a JSON number literal: optional minus, an integer part without
leading zeros, optional fraction, optional exponent. The digits of the integer
and fraction parts form one mantissa scaled by ten to the exponent minus the
fraction length. -/
def parseNumber (cs : List Char) : Option (Q × List Char) :=
  let signSplit := match cs with
    | '-' :: t => (true, t)
    | _ => (false, cs)
  let neg := signSplit.1
  let cs1 := signSplit.2
  let intDigits := cs1.takeWhile Char.isDigit
  let cs2 := cs1.drop intDigits.length
  if intDigits.isEmpty then none
  else if 1 < intDigits.length ∧ intDigits.head? = some '0' then none
  else
    let fracStep : Option (List Char × Nat × List Char) :=
      match cs2 with
      | '.' :: t =>
        let fd := t.takeWhile Char.isDigit
        if fd.isEmpty then none
        else some (intDigits ++ fd, fd.length, t.drop fd.length)
      | _ => some (intDigits, 0, cs2)
    match fracStep with
    | none => none
    | some (mantDigits, scale, cs3) =>
      let expStep : Option (Int × List Char) :=
        match cs3 with
        | e :: t =>
          if e = 'e' ∨ e = 'E' then
            let esignSplit := match t with
              | '+' :: t2 => ((1 : Int), t2)
              | '-' :: t2 => ((-1 : Int), t2)
              | _ => ((1 : Int), t)
            let ed := esignSplit.2.takeWhile Char.isDigit
            if ed.isEmpty then none
            else some (esignSplit.1 * (digitsToNat ed : Int), esignSplit.2.drop ed.length)
          else some (0, cs3)
        | [] => some (0, cs3)
      match expStep with
      | none => none
      | some (eVal, rest) =>
        let m : Int := (if neg then -1 else 1) * (digitsToNat mantDigits : Int)
        some (Q.ofScaled m (eVal - (scale : Int)), rest)

mutual

/-- Parses one JSON value, returning it and the remaining text. -/
def parseValue : Nat → List Char → Option (Json × List Char)
  | 0, _ => none
  | Nat.succ fuel, cs =>
    match skipWs cs with
    | 'n' :: 'u' :: 'l' :: 'l' :: rest => some (Json.null, rest)
    | 't' :: 'r' :: 'u' :: 'e' :: rest => some (Json.bool true, rest)
    | 'f' :: 'a' :: 'l' :: 's' :: 'e' :: rest => some (Json.bool false, rest)
    | '\x22' :: rest => (parseStringBody fuel rest).map
        (fun sr => (Json.str sr.1, sr.2))
    | '\x7b' :: rest => parseMembers fuel rest
    | '[' :: rest => parseElems fuel rest
    | c :: rest =>
      if c = '-' ∨ c.isDigit then
        (parseNumber (c :: rest)).map (fun qr => (Json.num qr.1, qr.2))
      else none
    | [] => none

/-- Parses array elements after the opening bracket. -/
def parseElems : Nat → List Char → Option (Json × List Char)
  | 0, _ => none
  | Nat.succ fuel, cs =>
    match skipWs cs with
    | ']' :: rest => some (Json.arr [], rest)
    | cs2 =>
      match parseValue fuel cs2 with
      | none => none
      | some (v, r) => parseElemsLoop fuel [v] r

/-- Continues an array after at least one element. -/
def parseElemsLoop : Nat → List Json → List Char → Option (Json × List Char)
  | 0, _, _ => none
  | Nat.succ fuel, acc, cs =>
    match skipWs cs with
    | ',' :: rest =>
      match parseValue fuel rest with
      | none => none
      | some (v, r) => parseElemsLoop fuel (acc ++ [v]) r
    | ']' :: rest => some (Json.arr acc, rest)
    | _ => none

/-- Parses object members after the opening brace. -/
def parseMembers : Nat → List Char → Option (Json × List Char)
  | 0, _ => none
  | Nat.succ fuel, cs =>
    match skipWs cs with
    | '\x7d' :: rest => some (Json.obj [], rest)
    | '\x22' :: rest =>
      match parseStringBody fuel rest with
      | none => none
      | some (k, r) =>
        match skipWs r with
        | ':' :: r2 =>
          match parseValue fuel r2 with
          | none => none
          | some (v, r3) => parseMembersLoop fuel [(k, v)] r3
        | _ => none
    | _ => none

/-- Continues an object after at least one member. -/
def parseMembersLoop : Nat → List (String × Json) → List Char →
    Option (Json × List Char)
  | 0, _, _ => none
  | Nat.succ fuel, acc, cs =>
    match skipWs cs with
    | ',' :: rest =>
      match skipWs rest with
      | '\x22' :: r1 =>
        match parseStringBody fuel r1 with
        | none => none
        | some (k, r2) =>
          match skipWs r2 with
          | ':' :: r3 =>
            match parseValue fuel r3 with
            | none => none
            | some (v, r4) => parseMembersLoop fuel (acc ++ [(k, v)]) r4
          | _ => none
      | _ => none
    | '\x7d' :: rest => some (Json.obj acc, rest)
    | _ => none

end

/-- json.loads: parses the whole string as one JSON value; trailing text other
than whitespace is an error (modelled as none, the providers catch the raised
JSONDecodeError). The fuel strictly exceeds the number of recursive calls any
input of this length can cause. -/
def json_loads (s : String) : Option Json :=
  match parseValue (4 * s.length + 16) s.data with
  | none => none
  | some (v, rest) => if skipWs rest = [] then some v else none

/-- Index of the first occurrence of a character (Python str.find, with none
for -1). -/
def charFirstIdx : List Char → Char → Option Nat
  | [], _ => none
  | c :: rest, target =>
    if c = target then some 0 else (charFirstIdx rest target).map (· + 1)

/-- Index of the last occurrence of a character (Python str.rfind, with none
for -1). -/
def charLastIdx (cs : List Char) (target : Char) : Option Nat :=
  (charFirstIdx cs.reverse target).map (fun k => cs.length - 1 - k)

/-- _extract_json (identical in app/providers/openai_provider.py and
app/providers/bedrock_provider.py): the substring from the first brace to the
last brace, or the whole content when either brace is absent. -/
def extract_json (content : String) : String :=
  let cs := content.data
  match charFirstIdx cs '\x7b', charLastIdx cs '\x7d' with
  | some start, some stop => ⟨(cs.drop start).take (stop + 1 - start)⟩
  | _, _ => content

/-- Python dict lookup on a parsed JSON object: duplicate keys keep the last
binding, as json.loads builds the dict in textual order. -/
def pyGetField (kvs : List (String × Json)) (key : String) : Option Json :=
  (kvs.reverse.find? (fun kv => kv.1 == key)).map (fun kv => kv.2)

/-- Python iteration over a JSON value: lists yield their elements, strings
their characters, dicts their keys; numbers, booleans and null raise
TypeError (none). -/
def pyIter : Json → Option (List Json)
  | Json.arr xs => some xs
  | Json.str s => some (s.data.map (fun c => Json.str ⟨[c]⟩))
  | Json.obj kvs => some (kvs.map (fun kv => Json.str kv.1))
  | _ => none

/-- Python float(str): optional surrounding whitespace and sign, digits with
optional decimal point and exponent; underscores, inf and nan are outside the
model. -/
def parseFloatStr (s : String) : Option Q :=
  let cs := skipWs s.data
  let signSplit := match cs with
    | '-' :: t => (true, t)
    | '+' :: t => (false, t)
    | _ => (false, cs)
  let neg := signSplit.1
  let cs1 := signSplit.2
  let intDigits := cs1.takeWhile Char.isDigit
  let cs2 := cs1.drop intDigits.length
  let fracStep : Option (List Char × Nat × List Char) :=
    match cs2 with
    | '.' :: t =>
      let fd := t.takeWhile Char.isDigit
      if intDigits.isEmpty ∧ fd.isEmpty then none
      else some (intDigits ++ fd, fd.length, t.drop fd.length)
    | _ => if intDigits.isEmpty then none else some (intDigits, 0, cs2)
  match fracStep with
  | none => none
  | some (mantDigits, scale, cs3) =>
    let expStep : Option (Int × List Char) :=
      match cs3 with
      | e :: t =>
        if e = 'e' ∨ e = 'E' then
          let esignSplit := match t with
            | '+' :: t2 => ((1 : Int), t2)
            | '-' :: t2 => ((-1 : Int), t2)
            | _ => ((1 : Int), t)
          let ed := esignSplit.2.takeWhile Char.isDigit
          if ed.isEmpty then none
          else some (esignSplit.1 * (digitsToNat ed : Int), esignSplit.2.drop ed.length)
        else some (0, cs3)
      | [] => some (0, cs3)
    match expStep with
    | none => none
    | some (eVal, rest) =>
      if skipWs rest = [] then
        let m : Int := (if neg then -1 else 1) * (digitsToNat mantDigits : Int)
        some (Q.ofScaled m (eVal - (scale : Int)))
      else none

/-- Python float(x) applied to a JSON value: numbers pass through, booleans
become 0 or 1, strings are parsed, everything else raises (none). -/
def pyFloat : Json → Option Q
  | Json.num q => some q
  | Json.bool b => some (if b then ⟨1, 1⟩ else ⟨0, 1⟩)
  | Json.str s => parseFloatStr s
  | _ => none

/-! ### Recommendation providers (app/providers)

Both remote providers slice the response text with _extract_json, hand it to
json.loads and build pydantic models from the decoded object inside one big
try/except whose handler returns None. Any KeyError (missing subscript),
TypeError (subscripting or iterating the wrong shape), ValueError (float of a
non-numeric string) or pydantic ValidationError therefore collapses to none
here. -/

/-- Evaluates a Python list comprehension whose body can raise: the first
failing element aborts the whole comprehension (none). -/
def optionMapList {α β : Type} (f : α → Option β) : List α → Option (List β)
  | [] => some []
  | x :: rest =>
    match f x with
    | none => none
    | some y =>
      match optionMapList f rest with
      | none => none
      | some ys => some (y :: ys)

/-- Check performed by pydantic on the risk Literal["low", "medium", "high"]. -/
def pydanticRiskOk (r : String) : Bool :=
  r == "low" || r == "medium" || r == "high"

/-- Check performed by pydantic on confidence (float, ge 0, le 1). -/
def pydanticConfOk (c : Q) : Bool :=
  Q.ble ⟨0, 1⟩ c && Q.ble c ⟨1, 1⟩

namespace OpenAIProvider

/-- _clamp_confidence from app/providers/openai_provider.py: float(value)
clamped by max(0.0, min(1.0, confidence)); TypeError and ValueError give
0.4. -/
def clamp_confidence (v : Json) : Q :=
  match pyFloat v with
  | some q => pymax ⟨0, 1⟩ (pymin ⟨1, 1⟩ q)
  | none => Q.ofScaled 4 (-1)

/-- _normalize_risk from app/providers/openai_provider.py:
str(value).lower(), replaced by "low" outside the known set; str of a
non-string JSON value is never one of the three literals. -/
def normalize_risk (v : Json) : String :=
  match v with
  | Json.str s =>
    let risk := strLower s
    if risk = "low" ∨ risk = "medium" ∨ risk = "high" then risk else "low"
  | _ => "low"

/-- Builds one RootCauseHypothesis from a decoded item:
item["hypothesis"] (KeyError when absent, TypeError when item is not a dict),
clamped confidence with default 0.4, and the pydantic checks (hypothesis must
be a string, confidence in range). -/
def parseHypItem (item : Json) : Option RootCauseHypothesis :=
  match item with
  | Json.obj kvs =>
    match pyGetField kvs "hypothesis" with
    | none => none
    | some h =>
      let conf := clamp_confidence
        ((pyGetField kvs "confidence").getD (Json.num (Q.ofScaled 4 (-1))))
      match h with
      | Json.str hs => if pydanticConfOk conf then some ⟨hs, conf⟩ else none
      | _ => none
  | _ => none

/-- Builds one RecommendedAction from a decoded item: item["action"],
normalized risk with default "low", clamped confidence with default 0.4, and
the pydantic checks. -/
def parseActionItem (item : Json) : Option RecommendedAction :=
  match item with
  | Json.obj kvs =>
    match pyGetField kvs "action" with
    | none => none
    | some a =>
      let risk := normalize_risk ((pyGetField kvs "risk").getD (Json.str "low"))
      let conf := clamp_confidence
        ((pyGetField kvs "confidence").getD (Json.num (Q.ofScaled 4 (-1))))
      match a with
      | Json.str as =>
        if pydanticRiskOk risk && pydanticConfOk conf then some ⟨as, risk, conf⟩
        else none
      | _ => none
  | _ => none

/-- The part of _parse_response after json.loads succeeds: data.get on a
non-dict raises (none); hypotheses are built before actions; an empty action
list gives none; otherwise the result carries the actions and the (possibly
empty) hypothesis list. -/
def parse_response_data (data : Json) : Option RecommendationResult :=
  match data with
  | Json.obj kvs =>
    match pyIter ((pyGetField kvs "root_cause_hypotheses").getD (Json.arr [])) with
    | none => none
    | some hypItems =>
      match optionMapList parseHypItem hypItems with
      | none => none
      | some hypotheses =>
        match pyIter ((pyGetField kvs "recommended_actions").getD (Json.arr [])) with
        | none => none
        | some actItems =>
          match optionMapList parseActionItem actItems with
          | none => none
          | some actions =>
            if actions = [] then none
            else some ⟨actions, some hypotheses⟩
  | _ => none

/-- _parse_response from app/providers/openai_provider.py. -/
def parse_response (content : String) : Option RecommendationResult :=
  match json_loads (extract_json content) with
  | none => none
  | some data => parse_response_data data

end OpenAIProvider

namespace BedrockProvider

/-- Builds one RootCauseHypothesis from a decoded item, as
app/providers/bedrock_provider.py does: item["hypothesis"], then
float(item.get("confidence", 0.4)) with no clamping, then the pydantic
checks; a float() failure or an out-of-range confidence makes the whole
response parse fail. -/
def parseHypItem (item : Json) : Option RootCauseHypothesis :=
  match item with
  | Json.obj kvs =>
    match pyGetField kvs "hypothesis" with
    | none => none
    | some h =>
      match pyFloat ((pyGetField kvs "confidence").getD (Json.num (Q.ofScaled 4 (-1)))) with
      | none => none
      | some conf =>
        match h with
        | Json.str hs => if pydanticConfOk conf then some ⟨hs, conf⟩ else none
        | _ => none
  | _ => none

/-- Builds one RecommendedAction from a decoded item, as
app/providers/bedrock_provider.py does: item["action"], the raw
item.get("risk", "low") with no normalization, and
float(item.get("confidence", 0.4)) with no clamping; pydantic then rejects
any risk outside the Literal set and any confidence outside [0, 1]. -/
def parseActionItem (item : Json) : Option RecommendedAction :=
  match item with
  | Json.obj kvs =>
    match pyGetField kvs "action" with
    | none => none
    | some a =>
      let riskJ := (pyGetField kvs "risk").getD (Json.str "low")
      match pyFloat ((pyGetField kvs "confidence").getD (Json.num (Q.ofScaled 4 (-1)))) with
      | none => none
      | some conf =>
        match a, riskJ with
        | Json.str as, Json.str risk =>
          if pydanticRiskOk risk && pydanticConfOk conf then some ⟨as, risk, conf⟩
          else none
        | _, _ => none
  | _ => none

/-- The part of _parse_response after json.loads succeeds, mirroring
app/providers/bedrock_provider.py (hypotheses before actions, none on an
empty action list). -/
def parse_response_data (data : Json) : Option RecommendationResult :=
  match data with
  | Json.obj kvs =>
    match pyIter ((pyGetField kvs "root_cause_hypotheses").getD (Json.arr [])) with
    | none => none
    | some hypItems =>
      match optionMapList parseHypItem hypItems with
      | none => none
      | some hypotheses =>
        match pyIter ((pyGetField kvs "recommended_actions").getD (Json.arr [])) with
        | none => none
        | some actItems =>
          match optionMapList parseActionItem actItems with
          | none => none
          | some actions =>
            if actions = [] then none
            else some ⟨actions, some hypotheses⟩
  | _ => none

/-- _parse_response from app/providers/bedrock_provider.py. -/
def parse_response (content : String) : Option RecommendationResult :=
  match json_loads (extract_json content) with
  | none => none
  | some data => parse_response_data data

end BedrockProvider

/-- The retry loop shared by the remote providers:
`for attempt in range(max_retries + 1)`. For each attempt index, the schedule
gives the message content when the HTTP call and response-field extraction
succeed, or none when any of it raises (the except branch logs and moves on).
The first successful attempt's content is parsed and returned immediately,
even when parsing yields none; when every attempt fails the loop falls
through to none. -/
def run_attempts (parse : String → Option RecommendationResult)
    (attempts : Nat → Option String) : Nat → Nat → Option RecommendationResult
  | _, 0 => none
  | i, Nat.succ remaining =>
    match attempts i with
    | some content => parse content
    | none => run_attempts parse attempts (i + 1) remaining

/-- OpenAIProvider.generate_recommendations: a missing or empty api key
(falsy `if not self.api_key`) returns None before any attempt; otherwise the
retry loop runs. -/
def OpenAIProvider.generate_recommendations (api_key : String) (max_retries : Nat)
    (attempts : Nat → Option String) : Option RecommendationResult :=
  if api_key = "" then none
  else run_attempts OpenAIProvider.parse_response attempts 0 (max_retries + 1)

/-- BedrockProvider.generate_recommendations: missing region or model id
(falsy) returns None before any attempt; otherwise the retry loop runs. -/
def BedrockProvider.generate_recommendations (region model_id : String)
    (max_retries : Nat) (attempts : Nat → Option String) :
    Option RecommendationResult :=
  if region = "" ∨ model_id = "" then none
  else run_attempts BedrockProvider.parse_response attempts 0 (max_retries + 1)

/-! ### Remediation advisor (app/agents/remediation_advisor.py) -/

/-- Outcome of provider.generate_recommendations as observed by
recommend_actions: the call either raises (caught by the try/except, which
sets response to None) or returns an optional result. -/
inductive ProviderOutcome where
  | raised
  | returned (result : Option RecommendationResult)
deriving DecidableEq, Repr

/-- The fixed fallback action installed by recommend_actions when the
selected provider yields no result. -/
def fallbackAction : RecommendedAction :=
  { action := "Review recent deployment changes and check pod events for failures"
    risk := "low"
    confidence := Q.ofScaled 4 (-1) }

/-- recommend_actions from app/agents/remediation_advisor.py: a raised
provider call becomes response = None; a None response yields the single
fixed fallback action (with no hypothesis override); otherwise the provider
result is returned unchanged. -/
def recommend_actions (outcome : ProviderOutcome) : RecommendationResult :=
  let response : Option RecommendationResult :=
    match outcome with
    | ProviderOutcome.raised => none
    | ProviderOutcome.returned r => r
  match response with
  | none => { recommended_actions := [fallbackAction], root_cause_hypotheses := none }
  | some resp => resp

/-! ### Orchestrator (app/orchestrator.py)

Each stage helper appends a StageTiming entry and a started timeline marker,
mutates the report, stamps updated_at, completes the timing entry, appends a
completed timeline marker and persists the whole report through the store.
Slack notifications have no effect on any state modelled here. -/

/-- State threaded through the orchestrator: the durable store, the trace of
reports passed to store.save_incident_report in call order, the clock advanced
by every now_utc call, and the uuid4 supply consumed by the store on falsy
incident ids. -/
structure OrchState where
  store : StoreState
  saveTrace : List IncidentReport
  clock : Nat
  uuids : Nat → String
  uuidCount : Nat

/-- One now_utc call: the current tick, and the state with the clock
advanced. -/
def tick (s : OrchState) : Nat × OrchState :=
  (s.clock, { s with clock := s.clock + 1 })

/-- One store.save_incident_report call made by the orchestrator; the save
itself calls now_utc once for the row timestamps. -/
def saveReport (s : OrchState) (r : IncidentReport) : OrchState :=
  let t := tick s
  let saved := Store.save_incident_report t.2.store r (t.2.uuids t.2.uuidCount) t.1
  { t.2 with
    store := saved.2
    saveTrace := t.2.saveTrace ++ [r]
    uuidCount := t.2.uuidCount + 1 }

/-- Mutation of the StageTiming object appended at stage start
(stage.completed_at = report.updated_at): the last ledger entry aliases the
local stage variable. -/
def completeLastStage : List StageTiming → Nat → List StageTiming
  | [], _ => []
  | [st], t => [{ st with completed_at := some t }]
  | st :: rest, t => st :: completeLastStage rest t

/-- triage_alert from app/agents/triage.py: two info evidence items built
from the severity (Python `or` falls back to "unknown" on an empty string)
and the incident type. -/
def triage_alert (report : IncidentReport) : TriageResult :=
  let sev := if report.severity = "" then "unknown" else report.severity
  { evidence :=
      [{ source := "triage", detail := "Incident severity: " ++ sev,
         severity := "info" },
       { source := "triage", detail := "Incident type: " ++ report.incident_type,
         severity := "info" }] }

namespace Orchestrator

/-- _triage: appends the triage evidence and sets status investigating. -/
def triage (r0 : IncidentReport) (s0 : OrchState) : IncidentReport × OrchState :=
  let t0 := tick s0
  let r1 := { r0 with
    stage_timings := r0.stage_timings ++
      [(⟨"triage", t0.1, none⟩ : StageTiming)]
    timeline := r0.timeline ++
      [(⟨"triage", "started", t0.1⟩ : TimelineEvent)] }
  let result := triage_alert r1
  let r2 := { r1 with
    evidence := r1.evidence ++ result.evidence
    status := Status.investigating }
  let t1 := tick t0.2
  let r3 := { r2 with
    updated_at := t1.1
    stage_timings := completeLastStage r2.stage_timings t1.1
    timeline := r2.timeline ++
      [(⟨"triage", "completed", t1.1⟩ : TimelineEvent)] }
  (r3, saveReport t1.2 r3)

/-- _investigate: runs the two collectors (their results are inputs here, as
they query the cluster) and merges evidence and links in gather order, k8s
then deploy; the status is unchanged. -/
def investigate (kres dres : InvestigationResult) (r0 : IncidentReport)
    (s0 : OrchState) : IncidentReport × OrchState :=
  let t0 := tick s0
  let r1 := { r0 with
    stage_timings := r0.stage_timings ++
      [(⟨"investigation", t0.1, none⟩ : StageTiming)]
    timeline := r0.timeline ++
      [(⟨"investigation", "started", t0.1⟩ : TimelineEvent)] }
  let r2 := { r1 with
    evidence := r1.evidence ++ kres.evidence ++ dres.evidence
    links := r1.links ++ kres.links ++ dres.links }
  let t1 := tick t0.2
  let r3 := { r2 with
    updated_at := t1.1
    stage_timings := completeLastStage r2.stage_timings t1.1
    timeline := r2.timeline ++
      [(⟨"investigation", "completed", t1.1⟩ : TimelineEvent)] }
  (r3, saveReport t1.2 r3)

/-- _analyze: replaces root_cause_hypotheses by _derive_hypotheses of the
current evidence; evidence and status are unchanged. -/
def analyze (r0 : IncidentReport) (s0 : OrchState) : IncidentReport × OrchState :=
  let t0 := tick s0
  let r1 := { r0 with
    stage_timings := r0.stage_timings ++
      [(⟨"analysis", t0.1, none⟩ : StageTiming)]
    timeline := r0.timeline ++
      [(⟨"analysis", "started", t0.1⟩ : TimelineEvent)] }
  let r2 := { r1 with root_cause_hypotheses := derive_hypotheses r1.evidence }
  let t1 := tick t0.2
  let r3 := { r2 with
    updated_at := t1.1
    stage_timings := completeLastStage r2.stage_timings t1.1
    timeline := r2.timeline ++
      [(⟨"analysis", "completed", t1.1⟩ : TimelineEvent)] }
  (r3, saveReport t1.2 r3)

/-- _recommend: replaces recommended_actions by the advisor result, keeps the
existing hypotheses when the provider hypothesis list is falsy (None or
empty, via Python `or`), and sets status recommended unconditionally. -/
def recommend (outcome : ProviderOutcome) (r0 : IncidentReport)
    (s0 : OrchState) : IncidentReport × OrchState :=
  let t0 := tick s0
  let r1 := { r0 with
    stage_timings := r0.stage_timings ++
      [(⟨"recommendation", t0.1, none⟩ : StageTiming)]
    timeline := r0.timeline ++
      [(⟨"recommendation", "started", t0.1⟩ : TimelineEvent)] }
  let recommendation := recommend_actions outcome
  let newHyps := match recommendation.root_cause_hypotheses with
    | some hs => if hs = [] then r1.root_cause_hypotheses else hs
    | none => r1.root_cause_hypotheses
  let r2 := { r1 with
    recommended_actions := recommendation.recommended_actions
    root_cause_hypotheses := newHyps
    status := Status.recommended }
  let t1 := tick t0.2
  let r3 := { r2 with
    updated_at := t1.1
    stage_timings := completeLastStage r2.stage_timings t1.1
    timeline := r2.timeline ++
      [(⟨"recommendation", "completed", t1.1⟩ : TimelineEvent)] }
  (r3, saveReport t1.2 r3)

/-- The fixed action _validate inserts when recommended_actions is still
empty. -/
def validateFallbackAction : RecommendedAction :=
  { action := "Run kubectl get events to confirm status"
    risk := "low"
    confidence := Q.ofScaled 4 (-1) }

/-- _validate: guarantees a non-empty action list, then sets the terminal
status validated. -/
def validate (r0 : IncidentReport) (s0 : OrchState) : IncidentReport × OrchState :=
  let t0 := tick s0
  let r1 := { r0 with
    stage_timings := r0.stage_timings ++
      [(⟨"validation", t0.1, none⟩ : StageTiming)]
    timeline := r0.timeline ++
      [(⟨"validation", "started", t0.1⟩ : TimelineEvent)] }
  let r2 :=
    if r1.recommended_actions = [] then
      { r1 with recommended_actions := r1.recommended_actions ++ [validateFallbackAction] }
    else r1
  let t1 := tick t0.2
  let r3 := { r2 with
    status := Status.validated
    updated_at := t1.1
    stage_timings := completeLastStage r2.stage_timings t1.1
    timeline := r2.timeline ++
      [(⟨"validation", "completed", t1.1⟩ : TimelineEvent)] }
  (r3, saveReport t1.2 r3)

/-- _run_pipeline: the five stages in fixed order. The provider outcome and
the collector results are the run's external inputs. -/
def run_pipeline (outcome : ProviderOutcome) (kres dres : InvestigationResult)
    (r : IncidentReport) (s : OrchState) : IncidentReport × OrchState :=
  let p1 := triage r s
  let p2 := investigate kres dres p1.1 p1.2
  let p3 := analyze p2.1 p2.2
  let p4 := recommend outcome p3.1 p3.2
  validate p4.1 p4.2

/-- handle_alert: classifies the alert, creates the report in status new with
one completed ingestion timeline entry, persists it and schedules
_run_pipeline as a background task (composed after this call by the
theorems). The uuid4 incident id is the incident_id parameter. -/
def handle_alert (payload : AlertPayload) (correlation_id : String)
    (incident_id : String) (s0 : OrchState) : IncidentReport × OrchState :=
  let ts := summarize_alert payload
  let t0 := tick s0
  let report : IncidentReport := {
    incident_id := incident_id
    correlation_id := correlation_id
    status := Status.new
    incident_type := ts.1
    severity := (dictGet payload.labels "severity").getD "unknown"
    summary := ts.2
    created_at := t0.1
    updated_at := t0.1
    timeline := [{ stage := "ingestion", status := "completed", timestamp := t0.1 }]
    evidence := []
    root_cause_hypotheses := []
    recommended_actions := []
    stage_timings := []
    links := []
    raw_alert := payload }
  (report, saveReport t0.2 report)

/-- Python error raised out of an orchestrator entry point. -/
inductive PyError where
  | valueError (msg : String)
  | attributeError (msg : String)
deriving DecidableEq, Repr

/-- analyze_incident from app/orchestrator.py. Store.get_incident_report
returns the json.loads dict, not an IncidentReport: a falsy result raises
ValueError("incident_not_found"); on a found report the first statement of
the next stage helper (_investigate when refresh_evidence is set, otherwise
_analyze) is report.stage_timings.append(...), which raises AttributeError on
a plain dict before any mutation or save. -/
def analyze_incident (st : StoreState) (incident_id : String)
    (refresh_evidence : Bool) : Except PyError IncidentReport :=
  match Store.get_incident_report st incident_id with
  | none => Except.error (PyError.valueError "incident_not_found")
  | some _ => Except.error
      (PyError.attributeError "dict object has no attribute stage_timings")

end Orchestrator

/-! ### Auxiliary definitions used by the verification -/

/-- Position of a status in the fixed lifecycle order. -/
def statusRank : Status → Nat
  | Status.new => 0
  | Status.investigating => 1
  | Status.recommended => 2
  | Status.validated => 3

/-- Decides that consecutive statuses never step backwards and never skip:
each successor rank lies between the current rank and the current rank plus
one. -/
def forwardChain : List Status → Bool
  | [] => true
  | [_] => true
  | a :: b :: rest =>
    (statusRank a ≤ statusRank b && statusRank b ≤ statusRank a + 1) &&
      forwardChain (b :: rest)

/-- A concrete incident report used by closed evaluations. -/
def sampleReport : IncidentReport :=
  { incident_id := "inc-1"
    correlation_id := "corr-1"
    status := Status.new
    incident_type := "crashloop"
    severity := "high"
    summary := "CrashLoop detected"
    created_at := 0
    updated_at := 0
    timeline := []
    evidence := []
    root_cause_hypotheses := []
    recommended_actions := []
    stage_timings := []
    links := []
    raw_alert := ⟨[], []⟩ }

/-- The sample report with a falsy (empty) incident id. -/
def emptyIdReport : IncidentReport :=
  { sampleReport with incident_id := "" }

/-- A store holding exactly the saved sample report. -/
def sampleStore : StoreState :=
  (Store.save_incident_report ⟨[]⟩ sampleReport "uuid-0" 0).2

/-- The row written over an existing row by the ON CONFLICT update clause of
save_incident_report. -/
def mergedRow (old new : IncidentRow) : IncidentRow :=
  { old with
    status := new.status
    severity := new.severity
    summary := new.summary
    updated_at := new.updated_at
    report_json := new.report_json }

/-- A report carrying the duplicate id, as first written. -/
def firstWriteReport : IncidentReport :=
  { sampleReport with
    incident_id := "dup-1"
    incident_type := "typeA"
    correlation_id := "corrA" }

/-- A second report carrying the same id with different classification
fields. -/
def secondWriteReport : IncidentReport :=
  { sampleReport with
    incident_id := "dup-1"
    incident_type := "typeB"
    correlation_id := "corrB"
    summary := "second summary" }

/-- A store holding one row whose blob column is empty text and one whose
blob column is unparsable text. -/
def corruptStore : StoreState :=
  ⟨[{ incident_id := "corrupt-empty"
      correlation_id := "c1"
      status := Status.new
      incident_type := "t"
      severity := "s"
      summary := "m"
      created_at := 0
      updated_at := 0
      report_json := ReportBlob.emptyText },
    { incident_id := "corrupt-bad"
      correlation_id := "c2"
      status := Status.new
      incident_type := "t"
      severity := "s"
      summary := "m"
      created_at := 0
      updated_at := 0
      report_json := ReportBlob.invalidJson }]⟩

/-- A concrete evidence item containing the crash-loop signature. -/
def crashLoopEvidence : Evidence :=
  { source := "kubernetes"
    detail := "Pod app-a is in CrashLoopBackOff with restart count > 5"
    severity := "error" }

/-- A concrete evidence item containing the image-pull signature. -/
def imagePullEvidence : Evidence :=
  { source := "deployment"
    detail := "Deployment app-b rollout failed: ImagePullBackOff"
    severity := "error" }

/-- A concrete evidence item containing no fault signature. -/
def plainEvidence : Evidence :=
  { source := "triage", detail := "Incident severity: high", severity := "info" }

/-- A backend response whose only action carries a risk value outside the
known set and no confidence field. -/
def extremeRiskContent : String :=
  "\x7b\"root_cause_hypotheses\": [], \"recommended_actions\": [\x7b\"action\": \"check pod events\", \"risk\": \"extreme\"\x7d]\x7d"

/-! ## Theorems -/

/-! ### Store lemmas -/

theorem upsertRow_append_fresh (rows : List IncidentRow) (row : IncidentRow)
    (h : ∀ r ∈ rows, r.incident_id ≠ row.incident_id) :
    upsertRow rows row = rows ++ [row] := by
  induction rows with
  | nil => rfl
  | cons a t ih =>
    have ha : a.incident_id ≠ row.incident_id := h a (List.mem_cons_self a t)
    simp [upsertRow, ha, ih (fun r hr => h r (List.mem_cons_of_mem a hr))]

theorem upsertRow_update_last (rows : List IncidentRow) (row1 row2 : IncidentRow)
    (hkey : row1.incident_id = row2.incident_id)
    (h : ∀ r ∈ rows, r.incident_id ≠ row2.incident_id) :
    upsertRow (rows ++ [row1]) row2 = rows ++ [mergedRow row1 row2] := by
  induction rows with
  | nil => simp [upsertRow, hkey, mergedRow]
  | cons a t ih =>
    have ha : a.incident_id ≠ row2.incident_id := h a (List.mem_cons_self a t)
    simp [upsertRow, ha, ih (fun r hr => h r (List.mem_cons_of_mem a hr))]

theorem find?_upsertRow (rows : List IncidentRow) (row : IncidentRow) :
    ∃ r, (upsertRow rows row).find? (fun x => x.incident_id == row.incident_id) = some r ∧
      r.incident_id = row.incident_id ∧ r.status = row.status ∧
      r.severity = row.severity ∧ r.summary = row.summary ∧
      r.updated_at = row.updated_at ∧ r.report_json = row.report_json := by
  induction rows with
  | nil =>
    exact ⟨row, by simp [upsertRow], rfl, rfl, rfl, rfl, rfl, rfl⟩
  | cons a t ih =>
    by_cases ha : a.incident_id = row.incident_id
    · refine ⟨mergedRow a row, ?_, ha, rfl, rfl, rfl, rfl, rfl⟩
      simp [upsertRow, ha, List.find?, mergedRow]
    · obtain ⟨r, hfind, hrest⟩ := ih
      refine ⟨r, ?_, hrest⟩
      simpa [upsertRow, ha, List.find?] using hfind

/-! ### C7 -/

/-- C7 (corrected): the claim fails when the incident id is falsy. Saving a
report whose incident_id is the empty string stores it under the fresh uuid,
so loading by its own incident id finds nothing, while the claim promises a
record with identical fields. -/
theorem save_empty_id_load_fails :
    Store.get_incident_report
      (Store.save_incident_report ⟨[]⟩ emptyIdReport "f3a1b2" 5).2
      emptyIdReport.incident_id = none := by
  rfl

/-- C7 (amended): for every incident report with a non-empty incident id,
saving it and loading by that id returns a record with identical incident id,
status, evidence count and summary. -/
theorem save_then_get_roundtrip (st : StoreState) (r : IncidentReport)
    (freshId : String) (now : Nat) (h : r.incident_id ≠ "") :
    ∃ d, Store.get_incident_report
        (Store.save_incident_report st r freshId now).2 r.incident_id = some d ∧
      d.incident_id = r.incident_id ∧ d.status = r.status ∧
      d.evidence.length = r.evidence.length ∧ d.summary = r.summary := by
  refine ⟨r, ?_, rfl, rfl, rfl, rfl⟩
  unfold Store.save_incident_report Store.get_incident_report
  simp only [if_neg h]
  obtain ⟨row, hfind, _, _, _, _, _, hblob⟩ :=
    find?_upsertRow st.incidents
      { incident_id := r.incident_id
        correlation_id := r.correlation_id
        status := r.status
        incident_type := r.incident_type
        severity := r.severity
        summary := r.summary
        created_at := now
        updated_at := now
        report_json := ReportBlob.jsonOf r }
  simp only [hfind, hblob]

/-- C7 witness. -/
theorem save_then_get_roundtrip_witness :
    ∃ d, Store.get_incident_report
        (Store.save_incident_report ⟨[]⟩ sampleReport "uuid-0" 0).2
        sampleReport.incident_id = some d ∧
      d.incident_id = sampleReport.incident_id ∧ d.status = sampleReport.status ∧
      d.evidence.length = sampleReport.evidence.length ∧
      d.summary = sampleReport.summary :=
  save_then_get_roundtrip ⟨[]⟩ sampleReport "uuid-0" 0 (by decide)

/-! ### C8 -/

/-- C8 (corrected): the claim fails because the ON CONFLICT update clause
does not overwrite correlation_id, incident_type or created_at. After two
saves under the same id with different incident types and correlation ids,
the single durable row still carries the first write's incident_type (typeA,
not the second write's typeB) and correlation_id, while taking the second
write's summary. -/
theorem upsert_keeps_first_write_classification :
    (Store.save_incident_report
        (Store.save_incident_report ⟨[]⟩ firstWriteReport "u1" 1).2
        secondWriteReport "u2" 2).2.incidents =
      [{ incident_id := "dup-1"
         correlation_id := "corrA"
         status := Status.new
         incident_type := "typeA"
         severity := "high"
         summary := "second summary"
         created_at := 1
         updated_at := 2
         report_json := ReportBlob.jsonOf secondWriteReport }] ∧
    secondWriteReport.incident_type = "typeB" ∧
    secondWriteReport.correlation_id = "corrB" := by
  exact ⟨rfl, rfl, rfl⟩

/-- C8 (amended): saving two reports with the same non-empty incident id into
a table not yet holding that id leaves exactly one row for the id; that row
takes status, severity, summary, updated_at and the report blob from the
second write, while correlation_id, incident_type and created_at remain from
the first write. -/
theorem upsert_single_row_latest (st : StoreState) (r1 r2 : IncidentReport)
    (i : String) (h1 : r1.incident_id = i) (h2 : r2.incident_id = i)
    (hi : i ≠ "") (habs : ∀ r ∈ st.incidents, r.incident_id ≠ i)
    (f1 f2 : String) (n1 n2 : Nat) :
    (Store.save_incident_report
        (Store.save_incident_report st r1 f1 n1).2 r2 f2 n2).2.incidents =
      st.incidents ++
        [{ incident_id := i
           correlation_id := r1.correlation_id
           status := r2.status
           incident_type := r1.incident_type
           severity := r2.severity
           summary := r2.summary
           created_at := n1
           updated_at := n2
           report_json := ReportBlob.jsonOf r2 }] ∧
    (Store.save_incident_report
        (Store.save_incident_report st r1 f1 n1).2 r2 f2 n2).2.incidents.countP
      (fun x => x.incident_id == i) = 1 := by
  have h1ne : ¬ r1.incident_id = "" := by rw [h1]; exact hi
  have h2ne : ¬ r2.incident_id = "" := by rw [h2]; exact hi
  have hrow1 : (Store.save_incident_report st r1 f1 n1).2.incidents =
      st.incidents ++
        [{ incident_id := r1.incident_id
           correlation_id := r1.correlation_id
           status := r1.status
           incident_type := r1.incident_type
           severity := r1.severity
           summary := r1.summary
           created_at := n1
           updated_at := n1
           report_json := ReportBlob.jsonOf r1 }] := by
    unfold Store.save_incident_report
    simp only [if_neg h1ne]
    exact upsertRow_append_fresh st.incidents _ (by intro r hr; simpa [h1] using habs r hr)
  have hmain : (Store.save_incident_report
      (Store.save_incident_report st r1 f1 n1).2 r2 f2 n2).2.incidents =
      st.incidents ++
        [{ incident_id := i
           correlation_id := r1.correlation_id
           status := r2.status
           incident_type := r1.incident_type
           severity := r2.severity
           summary := r2.summary
           created_at := n1
           updated_at := n2
           report_json := ReportBlob.jsonOf r2 }] := by
    conv_lhs => rw [Store.save_incident_report]
    simp only [if_neg h2ne, hrow1]
    rw [upsertRow_update_last _ _ _ (by rw [h1, h2])
      (by intro r hr; simpa [h2] using habs r hr)]
    simp [mergedRow, h1]
  refine ⟨hmain, ?_⟩
  rw [hmain, List.countP_append]
  have hz : st.incidents.countP (fun x => x.incident_id == i) = 0 := by
    rw [List.countP_eq_zero]
    intro r hr
    simpa using habs r hr
  simp [hz, List.countP_cons]

/-- C8 witness. -/
theorem upsert_single_row_latest_witness :
    (Store.save_incident_report
        (Store.save_incident_report ⟨[]⟩ firstWriteReport "u1" 1).2
        secondWriteReport "u2" 2).2.incidents =
      (⟨[]⟩ : StoreState).incidents ++
        [{ incident_id := "dup-1"
           correlation_id := firstWriteReport.correlation_id
           status := secondWriteReport.status
           incident_type := firstWriteReport.incident_type
           severity := secondWriteReport.severity
           summary := secondWriteReport.summary
           created_at := 1
           updated_at := 2
           report_json := ReportBlob.jsonOf secondWriteReport }] ∧
    (Store.save_incident_report
        (Store.save_incident_report ⟨[]⟩ firstWriteReport "u1" 1).2
        secondWriteReport "u2" 2).2.incidents.countP
      (fun x => x.incident_id == "dup-1") = 1 :=
  upsert_single_row_latest ⟨[]⟩ firstWriteReport secondWriteReport "dup-1"
    rfl rfl (by decide) (by intro r hr; simp at hr) "u1" "u2" 1 2

/-! ### C10 -/

/-- C10 (confirmed): when the durable row exists but its report blob is empty
text or text json.loads rejects, get_incident_report returns none instead of
raising; and when no row exists it also returns none, so a corrupt blob is
indistinguishable from an unknown id at the read interface. -/
theorem corrupt_blob_reads_none :
    (∀ (st : StoreState) (id : String) (row : IncidentRow),
      st.incidents.find? (fun r => r.incident_id == id) = some row →
      (row.report_json = ReportBlob.emptyText ∨
        row.report_json = ReportBlob.invalidJson) →
      Store.get_incident_report st id = none) ∧
    (∀ (st : StoreState) (id : String),
      st.incidents.find? (fun r => r.incident_id == id) = none →
      Store.get_incident_report st id = none) := by
  constructor
  · intro st id row hfind hbad
    rcases hbad with hb | hb <;>
      simp [Store.get_incident_report, hfind, hb]
  · intro st id hfind
    simp [Store.get_incident_report, hfind]

/-- C10 witness: the two corrupt rows of corruptStore and an absent id. -/
theorem corrupt_blob_reads_none_witness :
    Store.get_incident_report corruptStore "corrupt-empty" = none ∧
    Store.get_incident_report corruptStore "corrupt-bad" = none ∧
    Store.get_incident_report corruptStore "absent" = none :=
  ⟨corrupt_blob_reads_none.1 corruptStore "corrupt-empty" _ rfl (Or.inl rfl),
   corrupt_blob_reads_none.1 corruptStore "corrupt-bad" _ rfl (Or.inr rfl),
   corrupt_blob_reads_none.2 corruptStore "absent" rfl⟩

/-! ### Orchestrator stage lemmas -/

theorem triage_status (r : IncidentReport) (s : OrchState) :
    (Orchestrator.triage r s).1.status = Status.investigating := rfl

theorem investigate_status (kres dres : InvestigationResult) (r : IncidentReport)
    (s : OrchState) : (Orchestrator.investigate kres dres r s).1.status = r.status := rfl

theorem analyze_status (r : IncidentReport) (s : OrchState) :
    (Orchestrator.analyze r s).1.status = r.status := rfl

theorem analyze_evidence (r : IncidentReport) (s : OrchState) :
    (Orchestrator.analyze r s).1.evidence = r.evidence := rfl

theorem analyze_hypotheses (r : IncidentReport) (s : OrchState) :
    (Orchestrator.analyze r s).1.root_cause_hypotheses = derive_hypotheses r.evidence := rfl

theorem recommend_status (outcome : ProviderOutcome) (r : IncidentReport)
    (s : OrchState) : (Orchestrator.recommend outcome r s).1.status = Status.recommended := rfl

theorem validate_status (r : IncidentReport) (s : OrchState) :
    (Orchestrator.validate r s).1.status = Status.validated := rfl

theorem validate_actions_nonempty (r : IncidentReport) (s : OrchState) :
    (Orchestrator.validate r s).1.recommended_actions ≠ [] := by
  by_cases h : r.recommended_actions = [] <;>
    simp [Orchestrator.validate, h]

theorem handle_alert_status (payload : AlertPayload) (corr iid : String)
    (s : OrchState) : (Orchestrator.handle_alert payload corr iid s).1.status = Status.new := rfl

theorem triage_trace (r : IncidentReport) (s : OrchState) :
    (Orchestrator.triage r s).2.saveTrace =
      s.saveTrace ++ [(Orchestrator.triage r s).1] := rfl

theorem investigate_trace (kres dres : InvestigationResult) (r : IncidentReport)
    (s : OrchState) : (Orchestrator.investigate kres dres r s).2.saveTrace =
      s.saveTrace ++ [(Orchestrator.investigate kres dres r s).1] := rfl

theorem analyze_trace (r : IncidentReport) (s : OrchState) :
    (Orchestrator.analyze r s).2.saveTrace =
      s.saveTrace ++ [(Orchestrator.analyze r s).1] := rfl

theorem recommend_trace (outcome : ProviderOutcome) (r : IncidentReport)
    (s : OrchState) : (Orchestrator.recommend outcome r s).2.saveTrace =
      s.saveTrace ++ [(Orchestrator.recommend outcome r s).1] := rfl

theorem validate_trace (r : IncidentReport) (s : OrchState) :
    (Orchestrator.validate r s).2.saveTrace =
      s.saveTrace ++ [(Orchestrator.validate r s).1] := rfl

theorem handle_alert_trace (payload : AlertPayload) (corr iid : String)
    (s : OrchState) : (Orchestrator.handle_alert payload corr iid s).2.saveTrace =
      s.saveTrace ++ [(Orchestrator.handle_alert payload corr iid s).1] := rfl

/-! ### C1 -/

/-- C1 (confirmed): a completed pipeline run ends in status validated with a
non-empty recommended action list, for every starting report, every pair of
collector results and every provider outcome, including a provider that
raises or returns no result on every attempt. -/
theorem pipeline_validated_with_actions (outcome : ProviderOutcome)
    (kres dres : InvestigationResult) (r : IncidentReport) (s : OrchState) :
    (Orchestrator.run_pipeline outcome kres dres r s).1.status = Status.validated ∧
    (Orchestrator.run_pipeline outcome kres dres r s).1.recommended_actions ≠ [] := by
  unfold Orchestrator.run_pipeline
  exact ⟨validate_status _ _, validate_actions_nonempty _ _⟩

/-! ### C5 -/

/-- C5 (confirmed): whenever the provider chain yields no result (the
provider raised, or returned None after its retries), recommend_actions
returns exactly the one fixed fallback action (risk low, confidence 0.4) and
the recommend stage installs exactly that list on the report. -/
theorem recommend_installs_fallback (outcome : ProviderOutcome)
    (r : IncidentReport) (s : OrchState)
    (h : outcome = ProviderOutcome.raised ∨ outcome = ProviderOutcome.returned none) :
    recommend_actions outcome =
      { recommended_actions := [fallbackAction], root_cause_hypotheses := none } ∧
    (Orchestrator.recommend outcome r s).1.recommended_actions = [fallbackAction] := by
  rcases h with h | h <;> subst h <;> exact ⟨rfl, rfl⟩

/-- C5 witness. -/
theorem recommend_installs_fallback_witness :
    (recommend_actions ProviderOutcome.raised =
        { recommended_actions := [fallbackAction], root_cause_hypotheses := none } ∧
      (Orchestrator.recommend ProviderOutcome.raised sampleReport
        ⟨⟨[]⟩, [], 0, fun _ => "u", 0⟩).1.recommended_actions = [fallbackAction]) ∧
    (recommend_actions (ProviderOutcome.returned none) =
        { recommended_actions := [fallbackAction], root_cause_hypotheses := none } ∧
      (Orchestrator.recommend (ProviderOutcome.returned none) sampleReport
        ⟨⟨[]⟩, [], 0, fun _ => "u", 0⟩).1.recommended_actions = [fallbackAction]) :=
  ⟨recommend_installs_fallback _ _ _ (Or.inl rfl),
   recommend_installs_fallback _ _ _ (Or.inr rfl)⟩

/-! ### C6 -/

/-- C6 (code_bug): analyze_incident raises the not-found ValueError exactly
on an unknown id, but on a found report it raises AttributeError instead of
re-running the stages, because get_incident_report hands back the json.loads
dict and the stage helpers access pydantic attributes on it. -/
theorem analyze_incident_crashes_on_found_report :
    Store.get_incident_report sampleStore "inc-1" = some sampleReport ∧
    Orchestrator.analyze_incident sampleStore "inc-1" false =
      Except.error (Orchestrator.PyError.attributeError
        "dict object has no attribute stage_timings") ∧
    Orchestrator.analyze_incident sampleStore "inc-1" true =
      Except.error (Orchestrator.PyError.attributeError
        "dict object has no attribute stage_timings") ∧
    Orchestrator.analyze_incident sampleStore "missing" false =
      Except.error (Orchestrator.PyError.valueError "incident_not_found") :=
  ⟨rfl, rfl, rfl, rfl⟩

/-! ### C9 -/

/-- C9 (confirmed): the analyze stage derives hypotheses as a pure function
of the evidence list and is idempotent; every crash-loop item contributes the
fixed 0.6 hypothesis, every image-pull item the fixed 0.5 hypothesis, and
with no matching item the result is exactly the one generic 0.3 hypothesis. -/
theorem derive_hypotheses_signatures :
    (∀ (r : IncidentReport) (s : OrchState),
      (Orchestrator.analyze r s).1.root_cause_hypotheses = derive_hypotheses r.evidence) ∧
    (∀ (r : IncidentReport) (s s2 : OrchState),
      (Orchestrator.analyze (Orchestrator.analyze r s).1 s2).1.root_cause_hypotheses =
        (Orchestrator.analyze r s).1.root_cause_hypotheses) ∧
    (∀ (ev : List Evidence) (item : Evidence), item ∈ ev →
      strContains item.detail "CrashLoopBackOff" = true →
      crashLoopHyp ∈ derive_hypotheses ev) ∧
    (∀ (ev : List Evidence) (item : Evidence), item ∈ ev →
      strContains item.detail "ImagePullBackOff" = true →
      imagePullHyp ∈ derive_hypotheses ev) ∧
    (∀ ev : List Evidence,
      (∀ item ∈ ev, strContains item.detail "CrashLoopBackOff" = false ∧
        strContains item.detail "ImagePullBackOff" = false) →
      derive_hypotheses ev = [genericHyp]) := by
  refine ⟨fun r s => rfl, fun r s s2 => rfl, ?_, ?_, ?_⟩
  · intro ev item hmem hsig
    have hin : crashLoopHyp ∈ ev.flatMap signatureHypotheses :=
      List.mem_flatMap.mpr ⟨item, hmem, by simp [signatureHypotheses, hsig]⟩
    unfold derive_hypotheses
    rw [if_neg (List.ne_nil_of_mem hin)]
    exact hin
  · intro ev item hmem hsig
    have hin : imagePullHyp ∈ ev.flatMap signatureHypotheses :=
      List.mem_flatMap.mpr ⟨item, hmem, by
        by_cases hc : strContains item.detail "CrashLoopBackOff" <;>
          simp [signatureHypotheses, hsig, hc]⟩
    unfold derive_hypotheses
    rw [if_neg (List.ne_nil_of_mem hin)]
    exact hin
  · intro ev hno
    have hflat : ev.flatMap signatureHypotheses = [] := by
      rw [List.flatMap_eq_nil_iff]
      intro item hmem
      obtain ⟨h1, h2⟩ := hno item hmem
      simp [signatureHypotheses, h1, h2]
    unfold derive_hypotheses
    rw [hflat]
    rfl

/-- C9 witness: concrete evidence lists exercising each conjunct. -/
theorem derive_hypotheses_signatures_witness :
    (Orchestrator.analyze sampleReport ⟨⟨[]⟩, [], 0, fun _ => "u", 0⟩).1.root_cause_hypotheses =
      derive_hypotheses sampleReport.evidence ∧
    crashLoopHyp ∈ derive_hypotheses [crashLoopEvidence] ∧
    imagePullHyp ∈ derive_hypotheses [imagePullEvidence] ∧
    derive_hypotheses [plainEvidence] = [genericHyp] :=
  ⟨derive_hypotheses_signatures.1 sampleReport ⟨⟨[]⟩, [], 0, fun _ => "u", 0⟩,
   derive_hypotheses_signatures.2.2.1 [crashLoopEvidence] crashLoopEvidence
     (by decide) (by decide),
   derive_hypotheses_signatures.2.2.2.1 [imagePullEvidence] imagePullEvidence
     (by decide) (by decide),
   derive_hypotheses_signatures.2.2.2.2 [plainEvidence] (by decide)⟩

/-! ### C2 -/

/-- C2 (confirmed): the sequence of statuses persisted by a full run
(ingestion followed by the five pipeline stages) is exactly new,
investigating, investigating, investigating, recommended, validated —
forward along the fixed order, at most one step at a time, never backwards,
with validated only terminal. The reanalyze entry point performs no
transition on any input: analyze_incident always raises (ValueError on an
unknown id, AttributeError on a found report, see the C6 record) before any
mutation or save. -/
theorem status_forward_only :
    (∀ (payload : AlertPayload) (corr iid : String) (outcome : ProviderOutcome)
      (kres dres : InvestigationResult) (st0 : StoreState) (c0 : Nat)
      (uuids : Nat → String),
      (Orchestrator.run_pipeline outcome kres dres
          (Orchestrator.handle_alert payload corr iid ⟨st0, [], c0, uuids, 0⟩).1
          (Orchestrator.handle_alert payload corr iid
            ⟨st0, [], c0, uuids, 0⟩).2).2.saveTrace.map IncidentReport.status =
        [Status.new, Status.investigating, Status.investigating,
         Status.investigating, Status.recommended, Status.validated] ∧
      forwardChain
        ((Orchestrator.run_pipeline outcome kres dres
          (Orchestrator.handle_alert payload corr iid ⟨st0, [], c0, uuids, 0⟩).1
          (Orchestrator.handle_alert payload corr iid
            ⟨st0, [], c0, uuids, 0⟩).2).2.saveTrace.map IncidentReport.status) = true) ∧
    (∀ (st : StoreState) (id : String) (refresh : Bool),
      ∃ e, Orchestrator.analyze_incident st id refresh = Except.error e) := by
  constructor
  · intro payload corr iid outcome kres dres st0 c0 uuids
    refine ⟨?_, ?_⟩ <;>
    · unfold Orchestrator.run_pipeline
      rw [validate_trace, recommend_trace, analyze_trace, investigate_trace,
        triage_trace, handle_alert_trace]
      simp [validate_status, recommend_status, analyze_status, investigate_status,
        triage_status, handle_alert_status, forwardChain, statusRank]
  · intro st id refresh
    unfold Orchestrator.analyze_incident
    cases Store.get_incident_report st id with
    | none => exact ⟨Orchestrator.PyError.valueError "incident_not_found", rfl⟩
    | some r => exact ⟨Orchestrator.PyError.attributeError
        "dict object has no attribute stage_timings", rfl⟩

/-! ### Retry-loop lemmas -/

theorem run_attempts_all_fail (parse : String → Option RecommendationResult)
    (attempts : Nat → Option String) :
    ∀ (n i : Nat), (∀ j, i ≤ j → j < i + n → attempts j = none) →
      run_attempts parse attempts i n = none := by
  intro n
  induction n with
  | zero => intro i _; rfl
  | succ m ih =>
    intro i h
    have hi : attempts i = none := h i (Nat.le_refl i) (by omega)
    simp only [run_attempts, hi]
    exact ih (i + 1) (fun j h1 h2 => h j (by omega) (by omega))

theorem run_attempts_hits (parse : String → Option RecommendationResult)
    (attempts : Nat → Option String) :
    ∀ (n i k : Nat) (content : String), k < n →
      (∀ j, i ≤ j → j < i + k → attempts j = none) →
      attempts (i + k) = some content →
      run_attempts parse attempts i n = parse content := by
  intro n
  induction n with
  | zero => intro i k content hk; omega
  | succ m ih =>
    intro i k content hk hfail hsucc
    cases k with
    | zero =>
      simp only [Nat.add_zero] at hsucc
      simp only [run_attempts, hsucc]
    | succ k2 =>
      have hi : attempts i = none := hfail i (Nat.le_refl i) (by omega)
      simp only [run_attempts, hi]
      refine ih (i + 1) k2 content (by omega)
        (fun j h1 h2 => hfail j (by omega) (by omega)) ?_
      have harith : i + 1 + k2 = i + (k2 + 1) := by omega
      rw [harith]
      exact hsucc

/-! ### C4 -/

/-- C4 (confirmed): both remote providers return no result, without raising,
whenever all HTTP attempts fail, or the first successful attempt's text does
not parse as a JSON object (unparsable text, or a parsable non-object), or
the parsed recommended_actions list is empty, even with a non-empty parsed
hypothesis list. -/
theorem provider_total_failure_none :
    (∀ (api : String) (mr : Nat) (attempts : Nat → Option String),
      (∀ i, i < mr + 1 → attempts i = none) →
      OpenAIProvider.generate_recommendations api mr attempts = none) ∧
    (∀ (region model_id : String) (mr : Nat) (attempts : Nat → Option String),
      (∀ i, i < mr + 1 → attempts i = none) →
      BedrockProvider.generate_recommendations region model_id mr attempts = none) ∧
    (∀ content : String, json_loads (extract_json content) = none →
      OpenAIProvider.parse_response content = none ∧
      BedrockProvider.parse_response content = none) ∧
    (∀ (content : String) (data : Json),
      json_loads (extract_json content) = some data →
      (∀ kvs, data ≠ Json.obj kvs) →
      OpenAIProvider.parse_response content = none ∧
      BedrockProvider.parse_response content = none) ∧
    (∀ (kvs : List (String × Json)) (hypItems : List Json)
      (hyps : List RootCauseHypothesis) (actItems : List Json),
      pyIter ((pyGetField kvs "root_cause_hypotheses").getD (Json.arr [])) = some hypItems →
      optionMapList OpenAIProvider.parseHypItem hypItems = some hyps →
      pyIter ((pyGetField kvs "recommended_actions").getD (Json.arr [])) = some actItems →
      optionMapList OpenAIProvider.parseActionItem actItems = some [] →
      OpenAIProvider.parse_response_data (Json.obj kvs) = none) ∧
    (∀ (kvs : List (String × Json)) (hypItems : List Json)
      (hyps : List RootCauseHypothesis) (actItems : List Json),
      pyIter ((pyGetField kvs "root_cause_hypotheses").getD (Json.arr [])) = some hypItems →
      optionMapList BedrockProvider.parseHypItem hypItems = some hyps →
      pyIter ((pyGetField kvs "recommended_actions").getD (Json.arr [])) = some actItems →
      optionMapList BedrockProvider.parseActionItem actItems = some [] →
      BedrockProvider.parse_response_data (Json.obj kvs) = none) ∧
    (∀ (api : String) (mr : Nat) (attempts : Nat → Option String)
      (k : Nat) (content : String), k < mr + 1 →
      (∀ j, j < k → attempts j = none) → attempts k = some content →
      OpenAIProvider.parse_response content = none →
      OpenAIProvider.generate_recommendations api mr attempts = none) ∧
    (∀ (region model_id : String) (mr : Nat) (attempts : Nat → Option String)
      (k : Nat) (content : String), k < mr + 1 →
      (∀ j, j < k → attempts j = none) → attempts k = some content →
      BedrockProvider.parse_response content = none →
      BedrockProvider.generate_recommendations region model_id mr attempts = none) := by
  refine ⟨?_, ?_, ?_, ?_, ?_, ?_, ?_, ?_⟩
  · intro api mr attempts h
    unfold OpenAIProvider.generate_recommendations
    by_cases ha : api = ""
    · rw [if_pos ha]
    · rw [if_neg ha]
      exact run_attempts_all_fail _ _ _ 0 (fun j _ h2 => h j (by omega))
  · intro region model_id mr attempts h
    unfold BedrockProvider.generate_recommendations
    by_cases ha : region = "" ∨ model_id = ""
    · rw [if_pos ha]
    · rw [if_neg ha]
      exact run_attempts_all_fail _ _ _ 0 (fun j _ h2 => h j (by omega))
  · intro content h
    constructor
    · unfold OpenAIProvider.parse_response
      rw [h]
    · unfold BedrockProvider.parse_response
      rw [h]
  · intro content data hload hnotobj
    constructor
    · unfold OpenAIProvider.parse_response
      rw [hload]
      cases data with
      | obj kvs => exact absurd rfl (hnotobj kvs)
      | null => rfl
      | bool b => rfl
      | num q => rfl
      | str s => rfl
      | arr xs => rfl
    · unfold BedrockProvider.parse_response
      rw [hload]
      cases data with
      | obj kvs => exact absurd rfl (hnotobj kvs)
      | null => rfl
      | bool b => rfl
      | num q => rfl
      | str s => rfl
      | arr xs => rfl
  · intro kvs hypItems hyps actItems hIter1 hMap1 hIter2 hMap2
    simp [OpenAIProvider.parse_response_data, hIter1, hMap1, hIter2, hMap2]
  · intro kvs hypItems hyps actItems hIter1 hMap1 hIter2 hMap2
    simp [BedrockProvider.parse_response_data, hIter1, hMap1, hIter2, hMap2]
  · intro api mr attempts k content hk hfail hsucc hparse
    unfold OpenAIProvider.generate_recommendations
    by_cases ha : api = ""
    · rw [if_pos ha]
    · rw [if_neg ha]
      rw [run_attempts_hits _ _ _ 0 k content hk
        (fun j _ h2 => hfail j (by omega)) (by simpa using hsucc)]
      exact hparse
  · intro region model_id mr attempts k content hk hfail hsucc hparse
    unfold BedrockProvider.generate_recommendations
    by_cases ha : region = "" ∨ model_id = ""
    · rw [if_pos ha]
    · rw [if_neg ha]
      rw [run_attempts_hits _ _ _ 0 k content hk
        (fun j _ h2 => hfail j (by omega)) (by simpa using hsucc)]
      exact hparse

/-- C4 witness: every total-failure path at concrete inputs. -/
theorem provider_total_failure_none_witness :
    OpenAIProvider.generate_recommendations "key" 2 (fun _ => none) = none ∧
    BedrockProvider.generate_recommendations "us-east-1" "model-a" 2 (fun _ => none) = none ∧
    (OpenAIProvider.parse_response "no json here" = none ∧
      BedrockProvider.parse_response "no json here" = none) ∧
    (OpenAIProvider.parse_response "[1, 2]" = none ∧
      BedrockProvider.parse_response "[1, 2]" = none) ∧
    OpenAIProvider.parse_response_data (Json.obj
      [("root_cause_hypotheses", Json.arr [Json.obj [("hypothesis", Json.str "h1")]]),
       ("recommended_actions", Json.arr [])]) = none ∧
    BedrockProvider.parse_response_data (Json.obj
      [("root_cause_hypotheses", Json.arr [Json.obj [("hypothesis", Json.str "h1")]]),
       ("recommended_actions", Json.arr [])]) = none ∧
    OpenAIProvider.generate_recommendations "key" 2 (fun _ => some "garbage") = none ∧
    BedrockProvider.generate_recommendations "us-east-1" "model-a" 2
      (fun _ => some "garbage") = none :=
  ⟨provider_total_failure_none.1 "key" 2 (fun _ => none) (fun _ _ => rfl),
   provider_total_failure_none.2.1 "us-east-1" "model-a" 2 (fun _ => none) (fun _ _ => rfl),
   provider_total_failure_none.2.2.1 "no json here" rfl,
   provider_total_failure_none.2.2.2.1 "[1, 2]"
     (Json.arr [Json.num ⟨1, 1⟩, Json.num ⟨2, 1⟩]) rfl
     (fun kvs h => Json.noConfusion h),
   provider_total_failure_none.2.2.2.2.1
     [("root_cause_hypotheses", Json.arr [Json.obj [("hypothesis", Json.str "h1")]]),
      ("recommended_actions", Json.arr [])]
     [Json.obj [("hypothesis", Json.str "h1")]]
     [{ hypothesis := "h1", confidence := ⟨2, 5⟩ }] [] rfl rfl rfl rfl,
   provider_total_failure_none.2.2.2.2.2.1
     [("root_cause_hypotheses", Json.arr [Json.obj [("hypothesis", Json.str "h1")]]),
      ("recommended_actions", Json.arr [])]
     [Json.obj [("hypothesis", Json.str "h1")]]
     [{ hypothesis := "h1", confidence := ⟨2, 5⟩ }] [] rfl rfl rfl rfl,
   provider_total_failure_none.2.2.2.2.2.2.1 "key" 2 (fun _ => some "garbage")
     0 "garbage" (by omega) (fun j hj => absurd hj (Nat.not_lt_zero j)) rfl rfl,
   provider_total_failure_none.2.2.2.2.2.2.2 "us-east-1" "model-a" 2
     (fun _ => some "garbage") 0 "garbage" (by omega)
     (fun j hj => absurd hj (Nat.not_lt_zero j)) rfl rfl⟩

/-! ### Comprehension lemmas -/

theorem optionMapList_mem {α β : Type} (f : α → Option β) :
    ∀ (l : List α) (l2 : List β), optionMapList f l = some l2 →
      ∀ b ∈ l2, ∃ x ∈ l, f x = some b := by
  intro l
  induction l with
  | nil =>
    intro l2 h b hb
    simp only [optionMapList, Option.some.injEq] at h
    subst h
    simp at hb
  | cons x rest ih =>
    intro l2 h b hb
    unfold optionMapList at h
    cases hfx : f x with
    | none => rw [hfx] at h; exact Option.noConfusion h
    | some y =>
      rw [hfx] at h
      cases hrest : optionMapList f rest with
      | none => rw [hrest] at h; exact Option.noConfusion h
      | some ys =>
        rw [hrest] at h
        obtain rfl := Option.some.inj h
        rcases List.mem_cons.mp hb with rfl | hb2
        · exact ⟨x, List.mem_cons_self x rest, hfx⟩
        · obtain ⟨x2, hx2, hfx2⟩ := ih ys hrest b hb2
          exact ⟨x2, List.mem_cons_of_mem x hx2, hfx2⟩

theorem optionMapList_none_of_mem {α β : Type} (f : α → Option β) :
    ∀ (l : List α) (x : α), x ∈ l → f x = none → optionMapList f l = none := by
  intro l
  induction l with
  | nil => intro x hx; simp at hx
  | cons a rest ih =>
    intro x hx hfx
    rcases List.mem_cons.mp hx with rfl | hx2
    · simp [optionMapList, hfx]
    · unfold optionMapList
      cases hfa : f a with
      | none => rfl
      | some y => rw [ih x hx2 hfx]

/-! ### Provider item lemmas -/

theorem clamp_in_range (v : Json) :
    pydanticConfOk (OpenAIProvider.clamp_confidence v) = true := by
  unfold OpenAIProvider.clamp_confidence
  cases pyFloat v with
  | none => rfl
  | some q =>
    by_cases h1 : Q.blt q ⟨1, 1⟩ = true
    · simp only [pymin, if_pos h1]
      by_cases h2 : Q.blt ⟨0, 1⟩ q = true
      · simp only [pymax, if_pos h2]
        unfold Q.blt at h1 h2
        simp only [decide_eq_true_eq] at h1 h2
        simp only [pydanticConfOk, Q.ble, Bool.and_eq_true, decide_eq_true_eq]
        constructor <;> omega
      · simp only [pymax, if_neg h2]
        rfl
    · simp only [pymin, if_neg h1]
      rfl

theorem openai_actionItem_checks (item : Json) (a : RecommendedAction)
    (h : OpenAIProvider.parseActionItem item = some a) :
    pydanticRiskOk a.risk = true ∧ pydanticConfOk a.confidence = true := by
  unfold OpenAIProvider.parseActionItem at h
  split at h
  case h_2 => exact Option.noConfusion h
  case h_1 kvs =>
    split at h
    · exact Option.noConfusion h
    case h_2 aJ hact =>
      dsimp only at h
      split at h
      case h_2 => exact Option.noConfusion h
      case h_1 as =>
        split at h
        case isFalse => exact Option.noConfusion h
        case isTrue hcond =>
          obtain rfl := Option.some.inj h
          simp only [Bool.and_eq_true] at hcond
          exact hcond

theorem openai_actionItem_default_conf (kvs : List (String × Json))
    (a : RecommendedAction) (hnoconf : pyGetField kvs "confidence" = none)
    (h : OpenAIProvider.parseActionItem (Json.obj kvs) = some a) :
    a.confidence = Q.ofScaled 4 (-1) := by
  simp only [OpenAIProvider.parseActionItem, hnoconf] at h
  split at h
  · exact Option.noConfusion h
  case h_2 aJ hact =>
    split at h
    case h_2 => exact Option.noConfusion h
    case h_1 as =>
      split at h
      case isFalse => exact Option.noConfusion h
      case isTrue hcond =>
        obtain rfl := Option.some.inj h
        rfl

theorem bedrock_actionItem_bad_risk (kvs : List (String × Json)) (s : String)
    (hrisk : pyGetField kvs "risk" = some (Json.str s))
    (hbad : pydanticRiskOk s = false) :
    BedrockProvider.parseActionItem (Json.obj kvs) = none := by
  simp only [BedrockProvider.parseActionItem, hrisk, Option.getD_some]
  cases hga : pyGetField kvs "action" with
  | none => rfl
  | some a =>
    cases hfl : pyFloat ((pyGetField kvs "confidence").getD (Json.num (Q.ofScaled 4 (-1)))) with
    | none => simp [hfl]
    | some conf =>
      cases a with
      | str as => simp [hfl, hbad]
      | null => simp [hfl]
      | bool b => simp [hfl]
      | num q => simp [hfl]
      | arr xs => simp [hfl]
      | obj kvs2 => simp [hfl]

theorem bedrock_actionItem_bad_float (kvs : List (String × Json)) (v : Json)
    (hconf : pyGetField kvs "confidence" = some v) (hbad : pyFloat v = none) :
    BedrockProvider.parseActionItem (Json.obj kvs) = none := by
  simp only [BedrockProvider.parseActionItem, hconf, Option.getD_some]
  cases hga : pyGetField kvs "action" with
  | none => rfl
  | some a => simp [hbad]

theorem bedrock_actionItem_default_conf (kvs : List (String × Json))
    (a : RecommendedAction) (hnoconf : pyGetField kvs "confidence" = none)
    (h : BedrockProvider.parseActionItem (Json.obj kvs) = some a) :
    a.confidence = Q.ofScaled 4 (-1) := by
  simp only [BedrockProvider.parseActionItem, hnoconf] at h
  split at h
  · exact Option.noConfusion h
  case h_2 aJ hact =>
    split at h
    case h_1 => exact Option.noConfusion h
    case h_2 conf hfloat =>
      split at h
      case h_2 => exact Option.noConfusion h
      case h_1 as risk =>
        split at h
        case isFalse => exact Option.noConfusion h
        case isTrue hcond =>
          obtain rfl := Option.some.inj h
          have hc : pyFloat (Json.num (Q.ofScaled 4 (-1))) = some conf := hfloat
          simpa [pyFloat] using hc.symm

theorem bedrock_data_none_of_bad_item (dataKvs : List (String × Json))
    (actItems : List Json) (item : Json)
    (hIter : pyIter ((pyGetField dataKvs "recommended_actions").getD (Json.arr [])) =
      some actItems)
    (hmem : item ∈ actItems)
    (hnone : BedrockProvider.parseActionItem item = none) :
    BedrockProvider.parse_response_data (Json.obj dataKvs) = none := by
  simp only [BedrockProvider.parse_response_data]
  cases hi1 : pyIter ((pyGetField dataKvs "root_cause_hypotheses").getD (Json.arr [])) with
  | none => rfl
  | some hypItems =>
    cases hm1 : optionMapList BedrockProvider.parseHypItem hypItems with
    | none => simp [hm1]
    | some hyps =>
      simp [hm1, hIter, optionMapList_none_of_mem _ actItems item hmem hnone]

/-! ### Brace extraction lemmas -/

theorem charFirstIdx_append_none (l1 l2 : List Char) (c : Char)
    (h : charFirstIdx l1 c = none) :
    charFirstIdx (l1 ++ l2) c = (charFirstIdx l2 c).map (· + l1.length) := by
  induction l1 with
  | nil =>
    simp only [List.nil_append, List.length_nil]
    cases charFirstIdx l2 c <;> simp
  | cons a t ih =>
    simp only [charFirstIdx, List.cons_append, List.append_eq] at h ⊢
    by_cases hac : a = c
    · rw [if_pos hac] at h
      exact Option.noConfusion h
    · rw [if_neg hac] at h ⊢
      have ht : charFirstIdx t c = none := by
        cases hx : charFirstIdx t c with
        | none => rfl
        | some k => rw [hx] at h; simp at h
      rw [ih ht]
      cases charFirstIdx l2 c with
      | none => rfl
      | some k => simp [List.length_cons]; omega

theorem charFirstIdx_none_of_not_mem (l : List Char) (c : Char) (h : c ∉ l) :
    charFirstIdx l c = none := by
  induction l with
  | nil => rfl
  | cons a t ih =>
    have hac : ¬ a = c := fun he => h (he ▸ List.mem_cons_self a t)
    have ht : c ∉ t := fun hm => h (List.mem_cons_of_mem a hm)
    simp only [charFirstIdx, if_neg hac, ih ht]
    rfl

theorem string_data_append (a b : String) : (a ++ b).data = a.data ++ b.data := rfl

theorem extract_json_embedded (pre mid post : String)
    (hpre : '\x7b' ∉ pre.data) (hpost : '\x7d' ∉ post.data)
    (hhead : mid.data.head? = some '\x7b') (hlast : mid.data.getLast? = some '\x7d') :
    extract_json (pre ++ mid ++ post) = mid ∧ extract_json mid = mid := by
  obtain ⟨midRest, hm⟩ : ∃ midRest, mid.data = '\x7b' :: midRest := by
    cases hx : mid.data with
    | nil => rw [hx] at hhead; exact Option.noConfusion hhead
    | cons c rest =>
      rw [hx] at hhead
      simp only [List.head?_cons, Option.some.injEq] at hhead
      exact ⟨rest, by rw [hhead]⟩
  obtain ⟨revRest, hrev⟩ : ∃ revRest, mid.data.reverse = '\x7d' :: revRest := by
    cases hx : mid.data.reverse with
    | nil =>
      have hnil : mid.data = [] := by simpa using congrArg List.reverse hx
      rw [hnil] at hhead
      exact Option.noConfusion hhead
    | cons c rest =>
      have hh : mid.data.reverse.head? = some '\x7d' := by
        rw [List.head?_reverse]
        exact hlast
      rw [hx] at hh
      simp only [List.head?_cons, Option.some.injEq] at hh
      exact ⟨rest, by rw [hh]⟩
  have hmlen : 1 ≤ mid.data.length := by rw [hm]; simp
  have hdata : (pre ++ mid ++ post).data = pre.data ++ (mid.data ++ post.data) := by
    rw [string_data_append, string_data_append, List.append_assoc]
  have hfirst : charFirstIdx ((pre ++ mid ++ post).data) '\x7b' =
      some pre.data.length := by
    rw [hdata,
      charFirstIdx_append_none _ _ _ (charFirstIdx_none_of_not_mem _ _ hpre), hm]
    simp [charFirstIdx]
  have hpostrev : '\x7d' ∉ post.data.reverse := by
    simpa [List.mem_reverse] using hpost
  have hrevfull : ((pre ++ mid ++ post).data).reverse =
      post.data.reverse ++ (mid.data.reverse ++ pre.data.reverse) := by
    rw [hdata]
    simp [List.reverse_append]
  have hlastFirst : charFirstIdx (((pre ++ mid ++ post).data).reverse) '\x7d' =
      some post.data.length := by
    rw [hrevfull,
      charFirstIdx_append_none _ _ _ (charFirstIdx_none_of_not_mem _ _ hpostrev), hrev]
    simp [charFirstIdx]
  have hlen : ((pre ++ mid ++ post).data).length =
      pre.data.length + (mid.data.length + post.data.length) := by
    rw [hdata]
    simp [List.length_append]
  have hlastIdx : charLastIdx ((pre ++ mid ++ post).data) '\x7d' =
      some (pre.data.length + mid.data.length - 1) := by
    unfold charLastIdx
    rw [hlastFirst]
    show some ((pre ++ mid ++ post).data.length - 1 - post.data.length) =
      some (pre.data.length + mid.data.length - 1)
    congr 1
    rw [hlen]
    omega
  constructor
  · unfold extract_json
    simp only [hfirst, hlastIdx]
    have harith : pre.data.length + mid.data.length - 1 + 1 - pre.data.length =
        mid.data.length := by omega
    rw [harith, hdata, List.drop_left, List.take_left]
  · have hf : charFirstIdx mid.data '\x7b' = some 0 := by
      rw [hm]
      simp [charFirstIdx]
    have hl : charLastIdx mid.data '\x7d' = some (mid.data.length - 1) := by
      unfold charLastIdx
      rw [hrev]
      simp [charFirstIdx]
    unfold extract_json
    simp only [hf, hl]
    have harith2 : mid.data.length - 1 + 1 - 0 = mid.data.length := by omega
    rw [harith2, List.drop_zero, List.take_length]

theorem openai_parse_action_checks (content : String) (result : RecommendationResult)
    (h : OpenAIProvider.parse_response content = some result) :
    ∀ a ∈ result.recommended_actions,
      pydanticRiskOk a.risk = true ∧ pydanticConfOk a.confidence = true := by
  intro a ha
  unfold OpenAIProvider.parse_response at h
  split at h
  · exact Option.noConfusion h
  case h_2 data hdata =>
    unfold OpenAIProvider.parse_response_data at h
    split at h
    case h_2 => exact Option.noConfusion h
    case h_1 kvs =>
      split at h
      · exact Option.noConfusion h
      case h_2 hypItems _ =>
        split at h
        · exact Option.noConfusion h
        case h_2 hyps _ =>
          split at h
          · exact Option.noConfusion h
          case h_2 actItems _ =>
            split at h
            · exact Option.noConfusion h
            case h_2 actions hacts =>
              split at h
              · exact Option.noConfusion h
              case isFalse =>
                obtain rfl := Option.some.inj h
                obtain ⟨item, _, hsome⟩ :=
                  optionMapList_mem _ actItems actions hacts a ha
                exact openai_actionItem_checks item a hsome

/-! ### C3 -/

/-- C3 (corrected): the claim fails for BedrockProvider. On a response whose
only action carries risk "extreme" and no confidence, the claim predicts both
providers produce the action with risk replaced by "low" and confidence 0.4;
OpenAIProvider does exactly that, but BedrockProvider passes the raw risk to
pydantic, whose Literal check raises, so its parse yields no result. -/
theorem bedrock_parse_not_normalizing :
    BedrockProvider.parse_response extremeRiskContent = none ∧
    OpenAIProvider.parse_response extremeRiskContent =
      some { recommended_actions :=
               [{ action := "check pod events", risk := "low", confidence := ⟨2, 5⟩ }]
             root_cause_hypotheses := some [] } :=
  ⟨rfl, rfl⟩

/-- C3 (amended): both providers parse the substring from the first brace to
the last brace of the response text (prose around one JSON object is
ignored). In OpenAIProvider every successfully parsed action has a risk in
the known set and a confidence in [0, 1]; its risk normalization maps every
value outside the set (after lowercasing) to "low", and its confidence
handling clamps every float into [0, 1], defaulting to 0.4 when the field is
missing or float() raises. BedrockProvider performs no such normalization: an
action item whose risk is a string outside the set, or whose confidence
float() rejects, makes the whole response parse to no result; only the
missing-confidence default 0.4 is shared. -/
theorem provider_parsing_amended :
    (∀ pre mid post : String, '\x7b' ∉ pre.data → '\x7d' ∉ post.data →
      mid.data.head? = some '\x7b' → mid.data.getLast? = some '\x7d' →
      OpenAIProvider.parse_response (pre ++ mid ++ post) =
        OpenAIProvider.parse_response mid ∧
      BedrockProvider.parse_response (pre ++ mid ++ post) =
        BedrockProvider.parse_response mid) ∧
    (∀ (content : String) (result : RecommendationResult),
      OpenAIProvider.parse_response content = some result →
      ∀ a ∈ result.recommended_actions,
        pydanticRiskOk a.risk = true ∧ pydanticConfOk a.confidence = true) ∧
    (∀ v : Json, pydanticRiskOk (OpenAIProvider.normalize_risk v) = true) ∧
    (∀ s : String, pydanticRiskOk (strLower s) = false →
      OpenAIProvider.normalize_risk (Json.str s) = "low") ∧
    (∀ (v : Json) (q : Q), pyFloat v = some q →
      OpenAIProvider.clamp_confidence v = pymax ⟨0, 1⟩ (pymin ⟨1, 1⟩ q)) ∧
    (∀ v : Json, pyFloat v = none →
      OpenAIProvider.clamp_confidence v = Q.ofScaled 4 (-1)) ∧
    (∀ v : Json, pydanticConfOk (OpenAIProvider.clamp_confidence v) = true) ∧
    (∀ (kvs : List (String × Json)) (a : RecommendedAction),
      pyGetField kvs "confidence" = none →
      OpenAIProvider.parseActionItem (Json.obj kvs) = some a →
      a.confidence = Q.ofScaled 4 (-1)) ∧
    (∀ (kvs : List (String × Json)) (s : String),
      pyGetField kvs "risk" = some (Json.str s) → pydanticRiskOk s = false →
      BedrockProvider.parseActionItem (Json.obj kvs) = none) ∧
    (∀ (kvs : List (String × Json)) (v : Json),
      pyGetField kvs "confidence" = some v → pyFloat v = none →
      BedrockProvider.parseActionItem (Json.obj kvs) = none) ∧
    (∀ (kvs : List (String × Json)) (a : RecommendedAction),
      pyGetField kvs "confidence" = none →
      BedrockProvider.parseActionItem (Json.obj kvs) = some a →
      a.confidence = Q.ofScaled 4 (-1)) ∧
    (∀ (dataKvs : List (String × Json)) (actItems : List Json) (item : Json),
      pyIter ((pyGetField dataKvs "recommended_actions").getD (Json.arr [])) =
        some actItems →
      item ∈ actItems → BedrockProvider.parseActionItem item = none →
      BedrockProvider.parse_response_data (Json.obj dataKvs) = none) := by
  refine ⟨?_, openai_parse_action_checks, ?_, ?_, ?_, ?_, clamp_in_range,
    openai_actionItem_default_conf, bedrock_actionItem_bad_risk,
    bedrock_actionItem_bad_float, bedrock_actionItem_default_conf,
    bedrock_data_none_of_bad_item⟩
  · intro pre mid post hpre hpost hhead hlast
    obtain ⟨hemb, hmid⟩ := extract_json_embedded pre mid post hpre hpost hhead hlast
    constructor
    · unfold OpenAIProvider.parse_response
      rw [hemb, hmid]
    · unfold BedrockProvider.parse_response
      rw [hemb, hmid]
  · intro v
    cases v with
    | str s =>
      simp only [OpenAIProvider.normalize_risk]
      by_cases hc : strLower s = "low" ∨ strLower s = "medium" ∨ strLower s = "high"
      · rw [if_pos hc]
        rcases hc with hc | hc | hc <;> simp [pydanticRiskOk, hc]
      · rw [if_neg hc]
        rfl
    | null => rfl
    | bool b => rfl
    | num q => rfl
    | arr xs => rfl
    | obj kvs => rfl
  · intro s hbad
    simp only [OpenAIProvider.normalize_risk]
    rw [if_neg]
    intro hc
    rcases hc with hc | hc | hc <;> simp [pydanticRiskOk, hc] at hbad
  · intro v q hq
    unfold OpenAIProvider.clamp_confidence
    rw [hq]
  · intro v hnone
    unfold OpenAIProvider.clamp_confidence
    rw [hnone]

/-- C3 witness: each amended conjunct at a concrete input. -/
theorem provider_parsing_amended_witness :
    (OpenAIProvider.parse_response
        ("Sure! " ++ extremeRiskContent ++ " Hope that helps.") =
      OpenAIProvider.parse_response extremeRiskContent ∧
     BedrockProvider.parse_response
        ("Sure! " ++ extremeRiskContent ++ " Hope that helps.") =
      BedrockProvider.parse_response extremeRiskContent) ∧
    (pydanticRiskOk "low" = true ∧ pydanticConfOk (⟨2, 5⟩ : Q) = true) ∧
    pydanticRiskOk (OpenAIProvider.normalize_risk (Json.str "Extreme")) = true ∧
    OpenAIProvider.normalize_risk (Json.str "extreme") = "low" ∧
    OpenAIProvider.clamp_confidence (Json.num ⟨7, 2⟩) =
      pymax ⟨0, 1⟩ (pymin ⟨1, 1⟩ ⟨7, 2⟩) ∧
    OpenAIProvider.clamp_confidence Json.null = Q.ofScaled 4 (-1) ∧
    pydanticConfOk (OpenAIProvider.clamp_confidence (Json.num ⟨7, 2⟩)) = true ∧
    ({ action := "a", risk := "low", confidence := ⟨2, 5⟩ } :
        RecommendedAction).confidence = Q.ofScaled 4 (-1) ∧
    BedrockProvider.parseActionItem
      (Json.obj [("action", Json.str "a"), ("risk", Json.str "extreme")]) = none ∧
    BedrockProvider.parseActionItem
      (Json.obj [("action", Json.str "a"),
        ("confidence", Json.str "not a number")]) = none ∧
    ({ action := "a", risk := "low", confidence := ⟨2, 5⟩ } :
        RecommendedAction).confidence = Q.ofScaled 4 (-1) ∧
    BedrockProvider.parse_response_data
      (Json.obj [("root_cause_hypotheses", Json.arr []),
        ("recommended_actions",
          Json.arr [Json.obj [("action", Json.str "check pod events"),
            ("risk", Json.str "extreme")]])]) = none :=
  ⟨provider_parsing_amended.1 "Sure! " extremeRiskContent " Hope that helps."
      (by decide) (by decide) (by decide) (by decide),
   provider_parsing_amended.2.1 extremeRiskContent
      { recommended_actions :=
          [{ action := "check pod events", risk := "low", confidence := ⟨2, 5⟩ }]
        root_cause_hypotheses := some [] } rfl
      { action := "check pod events", risk := "low", confidence := ⟨2, 5⟩ }
      (List.mem_cons_self _ _),
   provider_parsing_amended.2.2.1 (Json.str "Extreme"),
   provider_parsing_amended.2.2.2.1 "extreme" (by decide),
   provider_parsing_amended.2.2.2.2.1 (Json.num ⟨7, 2⟩) ⟨7, 2⟩ rfl,
   provider_parsing_amended.2.2.2.2.2.1 Json.null rfl,
   provider_parsing_amended.2.2.2.2.2.2.1 (Json.num ⟨7, 2⟩),
   provider_parsing_amended.2.2.2.2.2.2.2.1 [("action", Json.str "a")]
      { action := "a", risk := "low", confidence := ⟨2, 5⟩ } rfl rfl,
   provider_parsing_amended.2.2.2.2.2.2.2.2.1
      [("action", Json.str "a"), ("risk", Json.str "extreme")] "extreme" rfl rfl,
   provider_parsing_amended.2.2.2.2.2.2.2.2.2.1
      [("action", Json.str "a"), ("confidence", Json.str "not a number")]
      (Json.str "not a number") rfl rfl,
   provider_parsing_amended.2.2.2.2.2.2.2.2.2.2.1 [("action", Json.str "a")]
      { action := "a", risk := "low", confidence := ⟨2, 5⟩ } rfl rfl,
   provider_parsing_amended.2.2.2.2.2.2.2.2.2.2.2
      [("root_cause_hypotheses", Json.arr []),
       ("recommended_actions",
         Json.arr [Json.obj [("action", Json.str "check pod events"),
           ("risk", Json.str "extreme")]])]
      [Json.obj [("action", Json.str "check pod events"),
        ("risk", Json.str "extreme")]]
      (Json.obj [("action", Json.str "check pod events"),
        ("risk", Json.str "extreme")])
      rfl (List.mem_cons_self _ _)
      (bedrock_actionItem_bad_risk _ "extreme" rfl rfl)⟩

end SreResponder
